import Mathlib

/-!
# TwoWheeler SMAC console: serial line framing and Relayer protocol

A shallow embedding of `Interface/Scripts/serialPort.js` (class
`LineBreakTransformer`) and `Interface/Scripts/SMAC_Interface.js`
(`ProcessRelayerMessage`, `Send_UItoRelayer`), together with the parts of
`Interface/Scripts/diagnostics.js` they call.

JavaScript strings are sequences of UTF-16 code units; a string is embedded as
a list of characters, one list element per code unit.
-/

set_option autoImplicit false

namespace SMAC

/-- A JavaScript string: the list of its code units. -/
abbrev Str := List Char

/-! ## String primitives of the host language -/

/-- Put a character in front of the first piece of a list of pieces. -/
def consHead (c : Char) : List Str → List Str
  | h :: t => (c :: h) :: t
  | [] => [[c]]

/-- Scanning loop of `String.prototype.split` for a non-empty separator: the
first argument counts the characters of a matched separator that are still to
be skipped, the result is the list of pieces from the current position on. -/
def splitAux (sep : Str) : Nat → Str → List Str
  | _, [] => [[]]
  | skip + 1, _ :: rest => splitAux sep skip rest
  | 0, c :: rest =>
    if sep.isPrefixOf (c :: rest) then
      [] :: splitAux sep (sep.length - 1) rest
    else
      consHead c (splitAux sep 0 rest)

/-- `s.split (sep)`: the pieces of `s` between the successive leftmost
occurrences of `sep`; with the empty separator, the code units of `s`. -/
def jsSplit (sep : Str) (s : Str) : List Str :=
  if sep = [] then s.map (fun c => [c]) else splitAux sep 0 s

/-- `s.startsWith (p)`. -/
def startsWith (s p : Str) : Bool := p.isPrefixOf s

/-- `s.substring (a)` for a non-negative `a`. -/
def substringFrom (s : Str) (a : Nat) : Str := s.drop a

/-- `s.substring (a, b)` for non-negative `a`, `b` (the two are swapped when
`a > b`). -/
def substring (s : Str) (a b : Nat) : Str :=
  (s.drop (min a b)).take (max a b - min a b)

/-- The delimiter used by `LineBreakTransformer`: carriage return, line feed. -/
def crlf : Str := ['\r', '\n']

/-- The field separator of the wire format. -/
def bar : Str := ['|']

/-! ## `LineBreakTransformer` (serialPort.js) -/

/-- State of a `LineBreakTransformer`: the text received since the last
delimiter. -/
structure LineBreakTransformer where
  container : Str
deriving DecidableEq, Repr

namespace LineBreakTransformer

/-- The constructor: `this.container = ''`. -/
def new : LineBreakTransformer := ⟨[]⟩

/-- Method `transform (chunk, controller)`: returns the new state and the
lines handed to `controller.enqueue`, in order. `lines.pop ()` removes the
last piece and stores it (`split` never returns an empty array, see
`jsSplit_ne_nil`). -/
def transform (t : LineBreakTransformer) (chunk : Str) :
    LineBreakTransformer × List Str :=
  let container := t.container ++ chunk
  let lines := jsSplit crlf container
  (⟨lines.getLast?.getD []⟩, lines.dropLast)

/-- Method `flush (controller)`: the lines handed to `controller.enqueue`. -/
def flush (t : LineBreakTransformer) : List Str := [t.container]

/-- The stream feeds the chunks in order: final state and everything enqueued
by the successive `transform` calls. -/
def feed (t : LineBreakTransformer) : List Str → LineBreakTransformer × List Str
  | [] => (t, [])
  | chunk :: chunks =>
    let r := t.transform chunk
    let r2 := feed r.1 chunks
    (r2.1, r.2 ++ r2.2)

/-- A whole stream: a fresh transformer, every chunk through `transform`, then
`flush` when the stream ends. -/
def run (chunks : List Str) : List Str :=
  let r := feed new chunks
  r.2 ++ r.1.flush

end LineBreakTransformer

/-- Reference definition, in the words of the specification: the lines of a
text split on CRLF, delimiters excluded, the CRLF-less remainder last. -/
def splitOnCRLF : Str → List Str
  | [] => [[]]
  | [c] => [[c]]
  | c :: d :: rest =>
    if c = '\r' ∧ d = '\n' then [] :: splitOnCRLF rest
    else consHead c (splitOnCRLF (d :: rest))

/-! ## Numbers and their conversions -/

/-- A JavaScript Number as `parseInt` produces it: `NaN` or an integer. The
integer is kept exactly; the host rounds integers above 2^53 to the nearest
double, which no two-character field can reach. -/
inductive Num where
  | nan
  | int (z : Int)
deriving DecidableEq, Repr

/-- White space and line terminators, as skipped by `parseInt`, `BigInt` and
`trim`. -/
def isWhiteSpace (c : Char) : Bool :=
  let n := c.toNat
  n = 9 || n = 10 || n = 11 || n = 12 || n = 13 || n = 32 || n = 160 || n = 5760
    || (8192 ≤ n && n ≤ 8202) || n = 8232 || n = 8233 || n = 8239 || n = 8287
    || n = 12288 || n = 65279

/-- Value of a character as a digit (letters count from 10), when it is one. -/
def digitVal (c : Char) : Option Nat :=
  let n := c.toNat
  if 48 ≤ n ∧ n ≤ 57 then some (n - 48)
  else if 97 ≤ n ∧ n ≤ 122 then some (n - 87)
  else if 65 ≤ n ∧ n ≤ 90 then some (n - 55)
  else none

/-- Value of a character as a digit of the given radix. -/
def radixDigit (radix : Nat) (c : Char) : Option Nat :=
  match digitVal c with
  | some d => if d < radix then some d else none
  | none => none

/-- The digits of the longest leading run of radix digits. -/
def digitRun (radix : Nat) : Str → List Nat
  | [] => []
  | c :: rest =>
    match radixDigit radix c with
    | some d => d :: digitRun radix rest
    | none => []

/-- The digits of a string made of radix digits only. -/
def allDigits (radix : Nat) : Str → Option (List Nat)
  | [] => some []
  | c :: rest =>
    match radixDigit radix c, allDigits radix rest with
    | some d, some ds => some (d :: ds)
    | _, _ => none

/-- The number written by a list of digits, most significant first. -/
def digitsValue (radix : Nat) (ds : List Nat) : Nat :=
  ds.foldl (fun acc d => acc * radix + d) 0

/-- The global `parseInt (string)` without a radix: leading white space is
skipped, then an optional sign, then `0x` or `0X` selects radix 16, then the
longest run of digits is read; no digit gives `NaN`. -/
def parseInt (input : Str) : Num :=
  let s := input.dropWhile isWhiteSpace
  let negative := s.head? = some '-'
  let s := if s.head? = some '-' ∨ s.head? = some '+' then s.tail else s
  let hex := startsWith s ['0', 'x'] || startsWith s ['0', 'X']
  let radix := if hex then 16 else 10
  let s := if hex then s.drop 2 else s
  let z := digitRun radix s
  if z = [] then Num.nan
  else if negative then Num.int (- (digitsValue radix z : Int))
  else Num.int (digitsValue radix z)

/-- The global `parseInt` applied to a value that may be `undefined`:
`undefined` is first converted to the string `undefined`. -/
def parseIntValue : Option Str → Num
  | some s => parseInt s
  | none => parseInt "undefined".toList

/-- `s.trim ()`. -/
def trim (s : Str) : Str :=
  ((s.dropWhile isWhiteSpace).reverse.dropWhile isWhiteSpace).reverse

/-- A non-empty string of radix digits, read as a number. -/
def wholeNumber (radix : Nat) (s : Str) : Option Nat :=
  if s = [] then none else (allDigits radix s).map (digitsValue radix)

/-- `BigInt (string)`: the exact integer written by the trimmed string (empty
gives 0; decimal with an optional sign, or `0x`, `0o`, `0b` literals);
`none` stands for the `SyntaxError` thrown on anything else. -/
def toBigInt (input : Str) : Option Int :=
  let s := trim input
  if s = [] then some 0
  else if startsWith s ['0', 'x'] || startsWith s ['0', 'X'] then
    (wholeNumber 16 (s.drop 2)).map Int.ofNat
  else if startsWith s ['0', 'o'] || startsWith s ['0', 'O'] then
    (wholeNumber 8 (s.drop 2)).map Int.ofNat
  else if startsWith s ['0', 'b'] || startsWith s ['0', 'B'] then
    (wholeNumber 2 (s.drop 2)).map Int.ofNat
  else
    match s with
    | '-' :: r => (wholeNumber 10 r).map (fun n => - (n : Int))
    | '+' :: r => (wholeNumber 10 r).map Int.ofNat
    | _ => (wholeNumber 10 s).map Int.ofNat

namespace Num

/-- `n.toString ()` (decimal; exponent forms of very large numbers aside). -/
def toStr : Num → Str
  | nan => "NaN".toList
  | int z => if z < 0 then '-' :: Nat.toDigits 10 z.natAbs else Nat.toDigits 10 z.natAbs

/-- The comparison `a < b` of a Number with a natural number; `NaN` compares
false. -/
def lt (a : Num) (b : Nat) : Bool :=
  match a with
  | nan => false
  | int z => decide (z < (b : Int))

/-- Number addition on integers, exact. The host adds doubles, which gives
the same number as long as the operands and the sum stay within 2^53 in
absolute value; the results below use it on small device counts only. -/
def add : Num → Num → Num
  | int a, int b => int (a + b)
  | _, _ => nan

/-- The array index a Number denotes as a property key, when it is one. -/
def arrayIndex? : Num → Option Nat
  | int (Int.ofNat n) => if n < 4294967295 then some n else none
  | int (Int.negSucc _) => none
  | nan => none

end Num

/-! ## Arrays -/

/-- A JavaScript array: its indexed elements (`none` is a hole or `undefined`)
and the properties stored under keys that are not array indices (such as
`NaN` or `-1`), in insertion order. -/
structure JSArray (α : Type) where
  elems : List (Option α)
  props : List (Num × α)
deriving DecidableEq, Repr

namespace JSArray

variable {α : Type}

/-- The literal `[]`. -/
def empty : JSArray α := ⟨[], []⟩

/-- The property stored under a key that is not an array index. -/
def getProp (k : Num) : List (Num × α) → Option α
  | [] => none
  | (k2, v) :: rest => if k2 = k then some v else getProp k rest

/-- Store a property under a key that is not an array index. -/
def setProp (k : Num) (v : α) : List (Num × α) → List (Num × α)
  | [] => [(k, v)]
  | (k2, v2) :: rest => if k2 = k then (k, v) :: rest else (k2, v2) :: setProp k v rest

/-- Store an indexed element; the array grows (with holes) when needed. -/
def setElem (i : Nat) (v : α) (l : List (Option α)) : List (Option α) :=
  if i < l.length then l.set i (some v)
  else l ++ List.replicate (i - l.length) none ++ [some v]

/-- The read `a[k]`; `none` is `undefined`. -/
def get (a : JSArray α) (k : Num) : Option α :=
  match k.arrayIndex? with
  | some i => (a.elems.getD i none)
  | none => getProp k a.props

/-- The write `a[k] = v`. -/
def set (a : JSArray α) (k : Num) (v : α) : JSArray α :=
  match k.arrayIndex? with
  | some i => { a with elems := setElem i v a.elems }
  | none => { a with props := setProp k v a.props }

/-- The property `a.length`. -/
def length (a : JSArray α) : Nat := a.elems.length

end JSArray

/-! ## The Node registry and the page state (SMAC_Interface.js, diagnostics.js) -/

/-- A Device object `{ name, version, ipEnabled, ppEnabled, rate }`; each
field is a string or `undefined` (`none`). -/
structure Device where
  name : Option Str
  version : Option Str
  ipEnabled : Option Str
  ppEnabled : Option Str
  rate : Option Str
deriving DecidableEq, Repr

/-- A Node object. `monitor` refers to the text area created for the Node by
`Diagnostics.AddNode` (its position in `State.monitors`), `none` is
`undefined`. -/
structure Node where
  name : Option Str
  version : Option Str
  macAddress : Option Str
  numDevices : Num
  devices : JSArray Device
  monitor : Option Nat
deriving DecidableEq, Repr

/-- The constant `MaxNodes`. -/
def MaxNodes : Nat := 20

/-- The constant `Diagnostics.MaxLogMessages`. -/
def MaxLogMessages : Nat := 500

/-- The kinds of exception the code can raise: a `TypeError` (a property of
`undefined` is read or written, or something that is not a function is
called) and the `SyntaxError` of `BigInt` on a string that is no integer. -/
inductive Exn where
  | typeError
  | badBigInt
deriving DecidableEq, Repr

/-- What a call does to the outside world, in order. Console output is left
out. -/
inductive Effect where
  | popupBar (message : Str) (ms : Nat)
  | popupMessage (title : Str) (message : Str)
  | send (data : Str)
  | deviceData (nodeIndex : Num) (deviceIndex : Num) (timestamp : Int) (value : Str)
  | showException (ex : Exn)
  | statusNodes (count : Nat)
  | statusDevices (total : Num)
deriving DecidableEq, Repr

/-- The global state: the array `Nodes`, the fields of `Diagnostics`, and the
content of every monitor text area created so far. -/
structure State where
  nodes : JSArray Node
  dataLogging : Bool
  numLogMessages : Nat
  currentNodeIndex : Nat
  monitors : List Str
deriving DecidableEq, Repr

/-- The state after startup: `Nodes[i] = undefined` for every `i < MaxNodes`,
`Diagnostics` as declared, no monitor. -/
def State.init : State :=
  { nodes := ⟨List.replicate MaxNodes none, []⟩
    dataLogging := false
    numLogMessages := 0
    currentNodeIndex := 0
    monitors := [] }

/-- The object `newNode` created for a Node that is not in `Nodes` yet. -/
def newNode : Node :=
  { name := some "not set".toList
    version := some "not set".toList
    macAddress := some "not set".toList
    numDevices := Num.int 0
    devices := JSArray.empty
    monitor := none }

namespace Diagnostics

/-- `Diagnostics.LogToMonitor (nodeIndex, logMessage)`: nothing when the Node
is unknown; a Node without monitor raises a `TypeError`, which is caught and
shown. -/
def LogToMonitor (st : State) (nodeIndex : Num) (logMessage : Str) : State × List Effect :=
  match st.nodes.get nodeIndex with
  | none => (st, [])
  | some node =>
    match node.monitor with
    | none => (st, [Effect.showException Exn.typeError])
    | some m =>
      if st.numLogMessages < MaxLogMessages then
        ({ st with
            monitors := st.monitors.set m (st.monitors.getD m [] ++ logMessage ++ ['\n'])
            numLogMessages := st.numLogMessages + 1 }, [])
      else
        ({ st with
            monitors := st.monitors.set m (logMessage ++ ['\n'])
            numLogMessages := 1 }, [])

/-- `Diagnostics.UpdateDevices (nodeIndex)` only rebuilds the device list of
the page; it raises (and shows) a `TypeError` when the Node is unknown, when
an element below `devices.length` is missing, or when a `rate` is
`undefined`. -/
def UpdateDevices (st : State) (nodeIndex : Num) : List Effect :=
  match st.nodes.get nodeIndex with
  | none => [Effect.showException Exn.typeError]
  | some node =>
    if node.devices.elems.all (fun d =>
        match d with
        | some dev => dev.rate.isSome
        | none => false)
    then [] else [Effect.showException Exn.typeError]

/-- `Diagnostics.AddNode (nodeIndex)`: a new, empty monitor text area is
created and saved in the Node object; an unknown Node raises (and shows) a
`TypeError`. -/
def AddNode (st : State) (i : Nat) : State × List Effect :=
  match st.nodes.get (Num.int i) with
  | none => (st, [Effect.showException Exn.typeError])
  | some node =>
    ({ st with
        nodes := st.nodes.set (Num.int i) { node with monitor := some st.monitors.length }
        monitors := st.monitors ++ [[]] }, [])

/-- The loop of `Diagnostics.BuildSystem` over the indices in the list: state,
effects and the number of Nodes found so far. -/
def buildLoop : List Nat → State × List Effect × Nat → State × List Effect × Nat
  | [], acc => acc
  | i :: rest, (st, effs, nodeCount) =>
    match st.nodes.get (Num.int i) with
    | none => buildLoop rest (st, effs, nodeCount)
    | some _ =>
      let r := AddNode st i
      let effs1 := effs ++ r.2 ++ UpdateDevices r.1 (Num.int i)
      let st2 := if nodeCount + 1 = 1 then { r.1 with currentNodeIndex := i } else r.1
      buildLoop rest (st2, effs1, nodeCount + 1)

/-- `Diagnostics.BuildSystem ()`: the Node blocks and monitors of the Nodes at
the indices below `MaxNodes` are rebuilt, then the Node count is shown. -/
def BuildSystem (st : State) : State × List Effect :=
  let r := buildLoop (List.range MaxNodes) (st, [], 0)
  (r.1, r.2.1 ++ [Effect.statusNodes r.2.2])

end Diagnostics

/-- Modelled from the spec: the string extension `padLeft (padChar, length)`
used by `Send_UItoRelayer`, which is not defined in the sources; "rendered as
exactly 2 digits, zero-padded on the left". A string that is long enough is
returned as it is. -/
def padLeft (s : Str) (padChar : Char) (len : Nat) : Str :=
  List.replicate (len - s.length) padChar ++ s

/-- Modelled from the spec: the string extension `padRight (padChar, length)`
used by `Send_UItoRelayer`, which is not defined in the sources; "exactly 4
characters, space-padded on the right". A string that is long enough is
returned as it is. -/
def padRight (s : Str) (padChar : Char) (len : Nat) : Str :=
  s ++ List.replicate (len - s.length) padChar

/-- The message that `Send_UItoRelayer` builds (`fullUIMessage`), for a
command string that is defined. -/
def fullUIMessage (nodeIndex deviceIndex : Num) (commandString : Str)
    (paramString : Option Str) : Str :=
  let nodeID := padLeft nodeIndex.toStr '0' 2
  let deviceID := padLeft deviceIndex.toStr '0' 2
  let command := padRight (substring commandString 0 4) ' ' 4
  let params :=
    match paramString with
    | none => []
    | some p => if p = [] then [] else '|' :: p
  nodeID ++ ['|'] ++ deviceID ++ ['|'] ++ command ++ params

/-- `Send_UItoRelayer (nodeIndex, deviceIndex, commandString, paramString)`:
the message and a line feed go to `SMACPort.Send`; with data logging on, the
message is also logged to the Node monitor. An `undefined` command string
raises a `TypeError`, which is caught and shown. -/
def Send_UItoRelayer (st : State) (nodeIndex deviceIndex : Num)
    (commandString : Option Str) (paramString : Option Str) : State × List Effect :=
  match commandString with
  | none => (st, [Effect.showException Exn.typeError])
  | some cmd =>
    let full := fullUIMessage nodeIndex deviceIndex cmd paramString
    let sent := [Effect.send (full ++ ['\n'])]
    if st.dataLogging then
      let r := Diagnostics.LogToMonitor st nodeIndex ("◀── ".toList ++ full)
      (r.1, sent ++ r.2)
    else (st, sent)

/-! ## `ProcessRelayerMessage` (SMAC_Interface.js) -/

/-- The `value` of a data string: `dataString.substring (fields[2].length + 7)`. -/
def frameValue (dataString : Str) (fields : List Str) : Str :=
  substringFrom dataString ((fields.getD 2 []).length + 7)

/-- The test `value[0] == '-' || (value[0] >= '0' && value[0] <= '9')`. -/
def isNumericValue (value : Str) : Bool :=
  match value.head? with
  | some c => c = '-' || (48 ≤ c.toNat && c.toNat ≤ 57)
  | none => false

/-- The assignment `Nodes[nodeIndex].devices[deviceIndex].field = ...`; `none`
is the `TypeError` raised when the Node or the Device is `undefined`. -/
def updateDevice (st : State) (nodeIndex deviceIndex : Num) (f : Device → Device) :
    Option State :=
  match st.nodes.get nodeIndex with
  | none => none
  | some node =>
    match node.devices.get deviceIndex with
    | none => none
    | some dev =>
      some { st with
        nodes := st.nodes.set nodeIndex
          { node with devices := node.devices.set deviceIndex (f dev) } }

/-- A branch that assigns one Device field and then calls
`Diagnostics.UpdateDevices (nodeIndex)`; a `TypeError` goes to the `catch` of
`ProcessRelayerMessage`. -/
def deviceFieldMessage (st : State) (nodeIndex deviceIndex : Num) (f : Device → Device) :
    State × List Effect :=
  match updateDevice st nodeIndex deviceIndex f with
  | none => (st, [Effect.showException Exn.typeError])
  | some st1 => (st1, Diagnostics.UpdateDevices st1 nodeIndex)

/-- The sum computed by `Nodes.forEach` for the status bar. -/
def totalDevices (nodes : JSArray Node) : Num :=
  nodes.elems.foldl (fun total node =>
    match node with
    | some n => total.add n.numDevices
    | none => total) (Num.int 0)

/-- The branch `NOINFO=`. -/
def nodeInfoMessage (st : State) (nodeIndex : Num) (fields : List Str) : State × List Effect :=
  let node :=
    match st.nodes.get nodeIndex with
    | some node => node
    | none => newNode
  let st1 := { st with
    nodes := st.nodes.set nodeIndex
      { node with
          name := some (substringFrom (fields.getD 3 []) 7)
          version := fields[4]?
          macAddress := fields[5]?
          numDevices := parseIntValue fields[6]? } }
  let r2 := Diagnostics.BuildSystem st1
  let r3 := Diagnostics.LogToMonitor r2.1 nodeIndex
    ("Node ".toList ++ nodeIndex.toStr ++ " connected.".toList)
  (r3.1, r2.2 ++ r3.2)

/-- The branch `DEINFO=`. -/
def deviceInfoMessage (st : State) (nodeIndex deviceIndex : Num) (value : Str) :
    State × List Effect :=
  match st.nodes.get nodeIndex with
  | none => (st, [])
  | some node =>
    let deviceFields := jsSplit bar (substringFrom value 7)
    let dev : Device :=
      { name := deviceFields[0]?
        version := deviceFields[1]?
        ipEnabled := deviceFields[2]?
        ppEnabled := deviceFields[3]?
        rate := deviceFields[4]? }
    let st1 := { st with
      nodes := st.nodes.set nodeIndex
        { node with devices := node.devices.set deviceIndex dev } }
    (st1, Diagnostics.UpdateDevices st1 nodeIndex
            ++ [Effect.statusDevices (totalDevices st1.nodes)])

/-- The branch `NONAME=`. `Diagnostics` has no member `UpdateNodeBlock`, so the
call after the assignment raises a `TypeError`. -/
def nodeNameMessage (st : State) (nodeIndex : Num) (value : Str) : State × List Effect :=
  match st.nodes.get nodeIndex with
  | none => (st, [Effect.showException Exn.typeError])
  | some node =>
    ({ st with nodes := st.nodes.set nodeIndex { node with name := some (substringFrom value 7) } },
      [Effect.showException Exn.typeError])

/-- The branch `value == 'NVER='`. -/
def nodeVersionMessage (st : State) (nodeIndex : Num) (value : Str) : State × List Effect :=
  match st.nodes.get nodeIndex with
  | none => (st, [Effect.showException Exn.typeError])
  | some node =>
    Diagnostics.BuildSystem
      { st with
        nodes := st.nodes.set nodeIndex { node with version := some (substringFrom value 5) } }

/-- The chain of tests on a non-numeric `value`. -/
def dispatchMessage (st : State) (nodeIndex deviceIndex : Num) (value : Str)
    (fields : List Str) : State × List Effect :=
  if startsWith value "NOINFO=".toList then nodeInfoMessage st nodeIndex fields
  else if startsWith value "DEINFO=".toList then deviceInfoMessage st nodeIndex deviceIndex value
  else if startsWith value "NONAME=".toList then nodeNameMessage st nodeIndex value
  else if startsWith value "DENAME=".toList then
    deviceFieldMessage st nodeIndex deviceIndex
      (fun dev => { dev with name := some (substringFrom value 7) })
  else if startsWith value "RATE=".toList then
    deviceFieldMessage st nodeIndex deviceIndex
      (fun dev => { dev with rate := some (substringFrom value 5) })
  else if value = "IP Enabled".toList then
    deviceFieldMessage st nodeIndex deviceIndex (fun dev => { dev with ipEnabled := some ['Y'] })
  else if value = "IP Disabled".toList then
    deviceFieldMessage st nodeIndex deviceIndex (fun dev => { dev with ipEnabled := some ['N'] })
  else if value = "PP Enabled".toList then
    deviceFieldMessage st nodeIndex deviceIndex (fun dev => { dev with ppEnabled := some ['Y'] })
  else if value = "PP Disabled".toList then
    deviceFieldMessage st nodeIndex deviceIndex (fun dev => { dev with ppEnabled := some ['N'] })
  else if value = "NVER=".toList then nodeVersionMessage st nodeIndex value
  else if value = "DVER=".toList then
    deviceFieldMessage st nodeIndex deviceIndex
      (fun dev => { dev with version := some (substringFrom value 5) })
  else if startsWith value "FILES=".toList then (st, [])
  else if startsWith value "FILE=".toList then (st, [])
  else if startsWith value "ERROR=".toList then
    Diagnostics.LogToMonitor st nodeIndex (substringFrom value 6)
  else if startsWith value "PONG".toList then
    Diagnostics.LogToMonitor st nodeIndex "PONG Received".toList
  else (st, [])

/-- What `ProcessRelayerMessage` does with a parsed data string, once `value`
is known: optional logging, the `deviceData` notification for a numeric
value, the chain of tests otherwise. -/
def valueMessage (st : State) (dataString : Str) (fields : List Str)
    (nodeIndex deviceIndex : Num) (timestamp : Int) (value : Str) : State × List Effect :=
  let logged :=
    if st.dataLogging then
      Diagnostics.LogToMonitor st nodeIndex ("──▶ ".toList ++ dataString)
    else (st, [])
  if isNumericValue value then
    (logged.1, logged.2 ++ [Effect.deviceData nodeIndex deviceIndex timestamp value])
  else
    let r := dispatchMessage logged.1 nodeIndex deviceIndex value fields
    (r.1, logged.2 ++ r.2)

/-- The part of `ProcessRelayerMessage` that handles a Node/Device data
string `nodeID|deviceID|timestamp|value`. -/
def dataMessage (st : State) (dataString : Str) : State × List Effect :=
  let fields := jsSplit bar dataString
  if fields.length < 4 then (st, [])
  else
    let nodeIndex := parseInt (fields.getD 0 [])
    let deviceIndex := parseInt (fields.getD 1 [])
    match toBigInt (fields.getD 2 []) with
    | none => (st, [Effect.showException Exn.badBigInt])
    | some timestamp =>
      valueMessage st dataString fields nodeIndex deviceIndex timestamp
        (frameValue dataString fields)

/-- `ProcessRelayerMessage (dataString)`: the new state and the effects, in
order. Every exception raised inside is caught and handed to `ShowException`. -/
def ProcessRelayerMessage (st : State) (dataString : Str) : State × List Effect :=
  if startsWith dataString "NODE|".toList then
    let nodeID := substring dataString 5 7
    let nodeIndex := parseInt nodeID
    if nodeIndex.lt MaxNodes then
      let r1 := Send_UItoRelayer st nodeIndex (Num.int 0) (some "GNOI".toList) none
      let r2 := Send_UItoRelayer r1.1 nodeIndex (Num.int 0) (some "GDEI".toList) none
      (r2.1, Effect.popupBar "New Node connected to Relayer".toList 2000 :: (r1.2 ++ r2.2))
    else (st, [])
  else if startsWith dataString "ERROR:".toList then
    (st, [Effect.popupMessage "SMAC Relayer/Node Error".toList (substringFrom dataString 6)])
  else dataMessage st dataString

/-- The read loop hands the lines to `ProcessRelayerMessage` one after the
other: final state and all effects. -/
def processLines (st : State) : List Str → State × List Effect
  | [] => (st, [])
  | line :: rest =>
    let r := ProcessRelayerMessage st line
    let r2 := processLines r.1 rest
    (r2.1, r.2 ++ r2.2)

/-! ## Observations and reference definitions -/

/-- The data handed to `SMACPort.Send`, in order. -/
def sends (effs : List Effect) : List Str :=
  effs.filterMap (fun e =>
    match e with
    | Effect.send data => some data
    | _ => none)

/-- The `deviceData` notifications triggered, in order. -/
def notifications (effs : List Effect) : List (Num × Num × Int × Str) :=
  effs.filterMap (fun e =>
    match e with
    | Effect.deviceData n d t v => some (n, d, t, v)
    | _ => none)

/-- The exceptions handed to `ShowException`, in order. -/
def reported (effs : List Effect) : List Exn :=
  effs.filterMap (fun e =>
    match e with
    | Effect.showException ex => some ex
    | _ => none)

/-- Reference definition, in the words of the specification: a number
rendered as exactly 2 decimal digits, zero-padded on the left. -/
def pad2 (n : Nat) : Str := [Char.ofNat (48 + n / 10), Char.ofNat (48 + n % 10)]

/-- Reference definition, in the words of the specification: the opcode
truncated to its first 4 characters and space-padded on the right to 4. -/
def op4 (op : Str) : Str := op.take 4 ++ List.replicate (4 - (op.take 4).length) ' '

/-- Reference definition, in the words of the specification: the outbound
command frame. -/
def encodeCommand (nodeID deviceID : Nat) (op : Str) (params : Option Str) : Str :=
  pad2 nodeID ++ ['|'] ++ pad2 deviceID ++ ['|'] ++ op4 op
    ++ (match params with
        | none => []
        | some p => if p = [] then [] else '|' :: p)
    ++ ['\n']

/-- The line `nn|dd|ts|rest`. -/
def dataFrame (nn dd ts rest : Str) : Str :=
  nn ++ '|' :: (dd ++ '|' :: (ts ++ '|' :: rest))

/-- A non-empty string of decimal digits. -/
def isDecimal (s : Str) : Prop := s ≠ [] ∧ ∀ c ∈ s, 48 ≤ c.toNat ∧ c.toNat ≤ 57

instance (s : Str) : Decidable (isDecimal s) :=
  inferInstanceAs (Decidable (s ≠ [] ∧ ∀ c ∈ s, 48 ≤ c.toNat ∧ c.toNat ≤ 57))

/-- Reference definition: the integer that a string of decimal digits
denotes, each digit weighted by its power of ten. -/
def decimalValue : Str → Nat
  | [] => 0
  | c :: rest => (c.toNat - 48) * 10 ^ rest.length + decimalValue rest

/-- The effects that stay inside the console: shown exceptions and status bar
updates. -/
def Effect.isReport : Effect → Bool
  | Effect.showException _ => true
  | Effect.statusNodes _ => true
  | Effect.statusDevices _ => true
  | _ => false

/-- A result whose effects all stay inside the console. -/
def Quiet (r : State × List Effect) : Prop := ∀ e ∈ r.2, e.isReport = true

/-- Reference definition, in the words of the specification: the first
character is `-` or a decimal digit. -/
def startsNumeric : Str → Prop
  | [] => False
  | c :: _ => c = '-' ∨ c ∈ ['0', '1', '2', '3', '4', '5', '6', '7', '8', '9']

instance : (v : Str) → Decidable (startsNumeric v)
  | [] => isFalse (fun h => h)
  | c :: _ =>
    inferInstanceAs
      (Decidable (c = '-' ∨ c ∈ ['0', '1', '2', '3', '4', '5', '6', '7', '8', '9']))

/-- The data of a registry slot, the monitor reference put aside. -/
def slotData (slot : Option Node) : Option Node :=
  slot.map (fun node => { node with monitor := none })

/-- The value `DEINFO=a|b|c|d|e`. -/
def deviceInfoValue (a b c d e : Str) : Str :=
  "DEINFO=".toList ++ (a ++ '|' :: (b ++ '|' :: (c ++ '|' :: (d ++ '|' :: e))))

/-- The value `NOINFO=name|version|mac|count`. -/
def nodeInfoValue (name version mac count : Str) : Str :=
  "NOINFO=".toList ++ (name ++ '|' :: (version ++ '|' :: (mac ++ '|' :: count)))

/-- The state reached from startup by the frame `03|00|1|NOINFO=a|b|c|1`:
Node 3 is known and has its monitor. -/
def stateWithNode3 : State :=
  (ProcessRelayerMessage State.init "03|00|1|NOINFO=a|b|c|1".toList).1

/-- The state reached from startup by the frames `03|00|1|NOINFO=a|b|c|1` and
`03|02|2|DEINFO=Temp|1.0|Y|N|3600`: Node 3 is known and has a Device 2. -/
def stateWithDevice : State :=
  (processLines State.init
    ["03|00|1|NOINFO=a|b|c|1".toList, "03|02|2|DEINFO=Temp|1.0|Y|N|3600".toList]).1

/-- The optional logging of a received data string, the first step of
`valueMessage`: state and effects. -/
def logData (st : State) (nodeIndex : Num) (dataString : Str) : State × List Effect :=
  if st.dataLogging = true then
    Diagnostics.LogToMonitor st nodeIndex ("──▶ ".toList ++ dataString)
  else (st, [])

/-- The values that update one field of a record that exists already. -/
inductive FieldUpdate where
  | nodeName (x : Str)
  | deviceName (x : Str)
  | rate (x : Str)
  | ipEnabled
  | ipDisabled
  | ppEnabled
  | ppDisabled
deriving DecidableEq, Repr

namespace FieldUpdate

/-- The value as it stands in the frame. -/
def value : FieldUpdate → Str
  | nodeName x => "NONAME=".toList ++ x
  | deviceName x => "DENAME=".toList ++ x
  | rate x => "RATE=".toList ++ x
  | ipEnabled => "IP Enabled".toList
  | ipDisabled => "IP Disabled".toList
  | ppEnabled => "PP Enabled".toList
  | ppDisabled => "PP Disabled".toList

/-- Whether the update addresses a Device (all but the Node rename). -/
def deviceScoped : FieldUpdate → Bool
  | nodeName _ => false
  | _ => true

/-- Whether the update is one of the four processing toggles. -/
def isToggle : FieldUpdate → Bool
  | ipEnabled => true
  | ipDisabled => true
  | ppEnabled => true
  | ppDisabled => true
  | _ => false

/-- Reference definition, in the words of the specification: the one field of
a Device record that the update sets. -/
def onDevice : FieldUpdate → Device → Device
  | nodeName _, dev => dev
  | deviceName x, dev => { dev with name := some x }
  | rate x, dev => { dev with rate := some x }
  | ipEnabled, dev => { dev with ipEnabled := some ['Y'] }
  | ipDisabled, dev => { dev with ipEnabled := some ['N'] }
  | ppEnabled, dev => { dev with ppEnabled := some ['Y'] }
  | ppDisabled, dev => { dev with ppEnabled := some ['N'] }

end FieldUpdate

/-- Reference definition: the registry `after` differs from `before` in
nothing but Device `d` of Node `n`, whose record is now `dev2`. -/
def OnlyDeviceChanged (before after : JSArray Node) (n d : Num) (dev2 : Device) : Prop :=
  ∃ node node2 : Node,
    before.get n = some node ∧ after.get n = some node2
      ∧ node2.devices.get d = some dev2
      ∧ (∀ j : Num, j ≠ d → node2.devices.get j = node.devices.get j)
      ∧ node2.name = node.name ∧ node2.version = node.version
      ∧ node2.macAddress = node.macAddress ∧ node2.numDevices = node.numDevices
      ∧ node2.monitor = node.monitor
      ∧ (∀ k : Num, k ≠ n → after.get k = before.get k)

/-- Reference definition: the registry `after` differs from `before` in
nothing but the name of Node `n`, which is now `x`. -/
def OnlyNodeNameChanged (before after : JSArray Node) (n : Num) (x : Str) : Prop :=
  ∃ node : Node,
    before.get n = some node ∧ after.get n = some { node with name := some x }
      ∧ (∀ k : Num, k ≠ n → after.get k = before.get k)

/-- The tests of the chain that lead to a branch writing to `Nodes`. -/
def mutating (value : Str) : Bool :=
  startsWith value "NOINFO=".toList || startsWith value "DEINFO=".toList
    || startsWith value "NONAME=".toList || startsWith value "DENAME=".toList
    || startsWith value "RATE=".toList
    || decide (value = "IP Enabled".toList) || decide (value = "IP Disabled".toList)
    || decide (value = "PP Enabled".toList) || decide (value = "PP Disabled".toList)
    || decide (value = "NVER=".toList) || decide (value = "DVER=".toList)

/-- A value that passes none of the tests of the chain. -/
def unrecognised (value : Str) : Bool :=
  !(mutating value || startsWith value "FILES=".toList || startsWith value "FILE=".toList
    || startsWith value "ERROR=".toList || startsWith value "PONG".toList)

/-- The number of records held in an array: defined indexed elements and
properties under other keys. -/
def JSArray.count {α : Type} (a : JSArray α) : Nat :=
  (a.elems.map Option.isSome).count true + a.props.length

/-! ## `SerialPort` (serialPort.js) -/

/-- How a promise of the browser ends once it is awaited. -/
inductive Settled where
  | fulfilled
  | rejected
deriving DecidableEq, Repr

/-- The fields of a `SerialPort` object. Handles are numbers; `none` is
`undefined`. `disconnectFunction` tells whether a callback was given to the
constructor. `TRS` holds the `LineBreakTransformer` of the current read
pipeline and `WSC` the end of the promise returned by `pipeTo` (the stream
objects `TDS`, `RSC`, `TES` carry no state of their own here); `generation`
counts the pipelines built so far and names their reader and writer. -/
structure SerialPort where
  webPort : Option Nat
  serialReader : Option Nat
  serialWriter : Option Nat
  portOpened : Bool
  disconnectFunction : Bool
  TRS : Option LineBreakTransformer
  WSC : Option Settled
  generation : Nat
deriving DecidableEq, Repr

/-- Which of the calls made while closing raise an exception (each of them is
inside its own `try` with an empty `catch`). -/
structure CloseFaults where
  cancelFails : Bool
  writerCloseFails : Bool
  portCloseFails : Bool
deriving DecidableEq, Repr

/-- What a `SerialPort` method does to the outside world, in order. Console
output is left out; an alert carries the fixed part of its text, without the
message of the exception that follows it. -/
inductive PortEffect where
  | readerCancel (failed : Bool)
  | writerClose (failed : Bool)
  | portClose (failed : Bool)
  | alert (text : Str)
  | process (line : Str)
  | disconnectCallback
  | requestPort
deriving DecidableEq, Repr

/-- How `navigator.serial.requestPort ()` ends: with a port object (possibly
`undefined`) or with a rejection (no port chosen) and its text. -/
inductive RequestOutcome where
  | port (handle : Option Nat)
  | refused (reason : Str)
deriving DecidableEq, Repr

/-- A call of `resolve` or `reject` inside the executor of a promise. -/
inductive Settle where
  | resolve (port : Option Nat)
  | reject (message : Str)
deriving DecidableEq, Repr

/-- What the port hands to the read pipeline, in order: decoded text, the end
of the stream, or a fault that makes `read ()` raise an exception. A fault
says whether the port offers a readable stream afterwards, which calls fail
while the streams are closed and how the write pipe of the next pipeline
ends. -/
inductive PortEvent where
  | chunk (text : Str)
  | close
  | fault (readable : Bool) (faults : CloseFaults) (pipe : Settled)
deriving DecidableEq, Repr

/-- How far `ReadLoop` got: still waiting in `read ()`, ended because the
reader reported `done`, ended because the port has no readable stream, or
ended by the outer `catch`. -/
inductive LoopEnd where
  | reading
  | done
  | noReadable
  | exception
deriving DecidableEq, Repr

/-- An event that does not end the loop: text, or a fault after which the
port has a readable stream. -/
def PortEvent.goesOn : PortEvent → Bool
  | PortEvent.chunk _ => true
  | PortEvent.close => false
  | PortEvent.fault readable _ _ => readable

namespace SerialPort

/-- The constructor. -/
def new (disconnectFunction : Bool) : SerialPort :=
  { webPort := none
    serialReader := none
    serialWriter := none
    portOpened := false
    disconnectFunction := disconnectFunction
    TRS := none
    WSC := none
    generation := 0 }

/-- Method `IsOpen ()`. -/
def IsOpen (s : SerialPort) : Bool := s.portOpened

/-- Method `CloseStreams ()`. The reader is cancelled (errors ignored),
`await this.RSC` waits for a stream object, which is no promise and cannot
fail, and the reader is released. The writer is closed (errors ignored), then
`await this.WSC` waits for the write pipe outside any inner `try`: when that
promise is rejected, the outer `catch` shows an alert and the writer is not
released. -/
def CloseStreams (s : SerialPort) (f : CloseFaults) : SerialPort × List PortEffect :=
  let r1 : SerialPort × List PortEffect :=
    match s.serialReader with
    | none => (s, [])
    | some _ => ({ s with serialReader := none }, [PortEffect.readerCancel f.cancelFails])
  match r1.1.serialWriter with
  | none => r1
  | some _ =>
    match r1.1.WSC with
    | some Settled.rejected =>
      (r1.1, r1.2 ++ [PortEffect.writerClose f.writerCloseFails,
                      PortEffect.alert "CloseStreams(): ".toList])
    | _ =>
      ({ r1.1 with serialWriter := none },
        r1.2 ++ [PortEffect.writerClose f.writerCloseFails])

/-- Method `Close ()`: the streams, then the port when there is one. -/
def Close (s : SerialPort) (f : CloseFaults) : SerialPort × List PortEffect :=
  let r := CloseStreams s f
  match r.1.webPort with
  | none => r
  | some _ =>
    ({ r.1 with webPort := none, portOpened := false },
      r.2 ++ [PortEffect.portClose f.portCloseFails])

/-- The listener that `Open` registers for the event `disconnect` of the port:
`await this.Close ()`, then the callback when one was given. -/
def disconnectListener (s : SerialPort) (f : CloseFaults) : SerialPort × List PortEffect :=
  let r := Close s f
  if s.disconnectFunction then (r.1, r.2 ++ [PortEffect.disconnectCallback]) else r

/-- Method `ChoosePort ()`: the new state, the calls of `resolve` and `reject`
in order (the first one settles the promise), and the effects. After
`reject` for an open port the executor goes on: there is no `return`. -/
def ChoosePort (s : SerialPort) (request : RequestOutcome) :
    SerialPort × List Settle × List PortEffect :=
  let first : List Settle :=
    if s.portOpened then [Settle.reject "Port is already open.".toList] else []
  match request with
  | RequestOutcome.port handle =>
    let second : List Settle :=
      match handle with
      | none => [Settle.reject "Invalid port from requestPort().".toList]
      | some _ => []
    ({ s with webPort := handle }, first ++ second ++ [Settle.resolve handle],
      [PortEffect.requestPort])
  | RequestOutcome.refused reason =>
    (s, first ++ [Settle.reject reason], [PortEffect.requestPort])

/-- What the promise returned by `ChoosePort` ends with: the first call of
`resolve` or `reject`. -/
def settlement (calls : List Settle) : Option Settle := calls.head?

/-- The set-up at the top of a round of `ReadLoop`: a new decoder, a new
`LineBreakTransformer`, a new reader, a new encoder with its write pipe and
a new writer. -/
def setupStreams (s : SerialPort) (pipe : Settled) : SerialPort :=
  { s with
      TRS := some LineBreakTransformer.new
      serialReader := some s.generation
      serialWriter := some s.generation
      WSC := some pipe
      generation := s.generation + 1 }

/-- The inner loop of `ReadLoop` over what the port delivers: every line that
comes out of the transformer goes to `this.process`; at the end of the
stream the transformer is flushed and the reader then reports `done`; on a
fault the streams are closed and, when the port has a readable stream, the
next round starts on a new pipeline. -/
def readRound (s : SerialPort) : List PortEvent → SerialPort × List PortEffect × LoopEnd
  | [] => (s, [], LoopEnd.reading)
  | PortEvent.chunk text :: rest =>
    let r := (s.TRS.getD LineBreakTransformer.new).transform text
    let out := readRound { s with TRS := some r.1 } rest
    (out.1, r.2.map PortEffect.process ++ out.2.1, out.2.2)
  | PortEvent.close :: _ =>
    (s, (s.TRS.getD LineBreakTransformer.new).flush.map PortEffect.process, LoopEnd.done)
  | PortEvent.fault readable faults pipe :: rest =>
    let r := CloseStreams s faults
    match r.1.webPort with
    | none => (r.1, r.2, LoopEnd.exception)
    | some _ =>
      if readable then
        let out := readRound (setupStreams r.1 pipe) rest
        (out.1, r.2 ++ out.2.1, out.2.2)
      else (r.1, r.2, LoopEnd.noReadable)

/-- Method `ReadLoop ()`: `readable` says whether the port has a readable
stream at the start, `pipe` how the first write pipe ends. Without a port
handle the test of `this.webPort.readable` raises a `TypeError`, which the
outer `catch` only logs. -/
def ReadLoop (s : SerialPort) (readable : Bool) (pipe : Settled) (events : List PortEvent) :
    SerialPort × List PortEffect × LoopEnd :=
  match s.webPort with
  | none => (s, [], LoopEnd.exception)
  | some _ =>
    if readable then readRound (setupStreams s pipe) events
    else (s, [], LoopEnd.noReadable)

/-- The lines handed to `this.process`, in order. -/
def processed (effs : List PortEffect) : List Str :=
  effs.filterMap (fun e =>
    match e with
    | PortEffect.process line => some line
    | _ => none)

/-- The alerts shown, in order. -/
def alerts (effs : List PortEffect) : List Str :=
  effs.filterMap (fun e =>
    match e with
    | PortEffect.alert text => some text
    | _ => none)

end SerialPort

/-- A port that was chosen and opened, with a running read pipeline whose
write pipe ends in a rejection (as when the device is pulled off), and a
disconnect callback. -/
def openedPort : SerialPort :=
  { webPort := some 1
    serialReader := some 0
    serialWriter := some 0
    portOpened := true
    disconnectFunction := true
    TRS := some LineBreakTransformer.new
    WSC := some Settled.rejected
    generation := 1 }

/-- A transport whose port was chosen but never opened. -/
def chosenPort : SerialPort :=
  { SerialPort.new true with webPort := some 1 }

/-- No call fails while closing. -/
def noFaults : CloseFaults :=
  { cancelFails := false, writerCloseFails := false, portCloseFails := false }

/-! ## Observations for the status bar, the monitors and the value offset -/

/-- The totals written to `#statusBar_Devices`, in order. -/
def statusTotals (effs : List Effect) : List Num :=
  effs.filterMap (fun e =>
    match e with
    | Effect.statusDevices total => some total
    | _ => none)

/-- Reference definition, in the words of the specification: the Nodes
currently in the registry, under whatever key they are stored. -/
def registryNodes (nodes : JSArray Node) : List Node :=
  nodes.elems.filterMap id ++ nodes.props.map Prod.snd

/-- Reference definition, in the words of the specification: the sum of the
numbers of a list. -/
def sumNums (l : List Num) : Num := l.foldr Num.add (Num.int 0)

/-- Reference definition, in the words of the specification: the sum of
`numDevices` over all Nodes in the registry. -/
def deviceCountSum (nodes : JSArray Node) : Num :=
  sumNums ((registryNodes nodes).map Node.numDevices)

/-- The state reached from startup by the frames `-1|00|1|NOINFO=a|b|c|5` and
`03|00|1|NOINFO=a|b|c|1`: Node 3 is known and announces one Device, and a
Node announcing five Devices is stored under the key `-1`. -/
def stateWithStrayNode : State :=
  (processLines State.init
    ["-1|00|1|NOINFO=a|b|c|5".toList, "03|00|1|NOINFO=a|b|c|1".toList]).1

/-- The state reached from startup by the frames `03|00|1|NOINFO=a|b|c|1` and
`04|00|2|NOINFO=d|e|f|1`: Nodes 3 and 4 are known and have their monitors. -/
def stateWithTwoNodes : State :=
  (processLines State.init
    ["03|00|1|NOINFO=a|b|c|1".toList, "04|00|2|NOINFO=d|e|f|1".toList]).1

/-- The same message logged `n` times in a row to the monitor of one Node:
`n` calls of `Diagnostics.LogToMonitor`. -/
def logRepeat (st : State) (nodeIndex : Num) (logMessage : Str) : Nat → State
  | 0 => st
  | n + 1 => logRepeat (Diagnostics.LogToMonitor st nodeIndex logMessage).1 nodeIndex logMessage n

/-- The text of the monitor box of a Node. -/
def monitorText (st : State) (nodeIndex : Num) : Option Str :=
  match st.nodes.get nodeIndex with
  | none => none
  | some node =>
    match node.monitor with
    | none => none
    | some m => st.monitors[m]?

/-- The number of logged lines in a monitor text: `LogToMonitor` ends every
message with a line feed. -/
def loggedLines (text : Str) : Nat := text.count '\n'

/-- The text of a line after its third bar. -/
def afterThirdBar (f0 f1 f2 : Str) (line : Str) : Str :=
  line.drop (f0.length + f1.length + f2.length + 3)

/-! ## Facts about splitting -/

theorem consHead_ne_nil (c : Char) (l : List Str) : consHead c l ≠ [] := by
  cases l <;> simp [consHead]

theorem splitAux_ne_nil (sep : Str) (k : Nat) (s : Str) : splitAux sep k s ≠ [] := by
  induction s generalizing k with
  | nil => cases k <;> simp [splitAux]
  | cons c rest ih =>
    cases k with
    | zero =>
      simp only [splitAux]
      split
      · simp
      · exact consHead_ne_nil _ _
    | succ k => simpa [splitAux] using ih k

theorem jsSplit_ne_nil (sep : Str) (hsep : sep ≠ []) (s : Str) : jsSplit sep s ≠ [] := by
  simp [jsSplit, hsep, splitAux_ne_nil]

theorem splitAux_skip (sep : Str) (k : Nat) (s : Str) :
    splitAux sep k s = splitAux sep 0 (s.drop k) := by
  induction s generalizing k with
  | nil => cases k <;> simp [splitAux]
  | cons c rest ih =>
    cases k with
    | zero => simp
    | succ k => simpa [splitAux] using ih k

theorem splitOnCRLF_ne_nil (s : Str) : splitOnCRLF s ≠ [] := by
  induction s using splitOnCRLF.induct with
  | case1 => simp [splitOnCRLF]
  | case2 c => simp [splitOnCRLF]
  | case3 c d rest h ih => simp [splitOnCRLF, h]
  | case4 c d rest h ih => simp [splitOnCRLF, h, consHead_ne_nil]

/-- The library call `split ('\r\n')` computes the reference split. -/
theorem jsSplit_crlf (s : Str) : jsSplit crlf s = splitOnCRLF s := by
  have hne : crlf ≠ [] := by simp [crlf]
  simp only [jsSplit, hne, if_false]
  induction s using splitOnCRLF.induct with
  | case1 => simp [splitOnCRLF, splitAux]
  | case2 c => simp [splitOnCRLF, splitAux, crlf, consHead]
  | case3 c d rest h ih =>
    obtain ⟨rfl, rfl⟩ := h
    simp [splitOnCRLF, splitAux, crlf, ih.symm]
  | case4 c d rest h ih =>
    have hp : List.isPrefixOf crlf (c :: d :: rest) = false := by
      simp only [crlf, List.isPrefixOf, Bool.and_true, Bool.and_eq_false_imp, beq_iff_eq]
      intro hc
      simp only [beq_eq_false_iff_ne, ne_eq]
      intro hd
      exact h ⟨hc.symm, hd.symm⟩
    rw [splitAux, hp]
    simp [splitOnCRLF, h, ih]

theorem splitOnCRLF_cons (c : Char) (x : Str)
    (h : ¬ (c = '\r' ∧ x.head? = some '\n')) :
    splitOnCRLF (c :: x) = consHead c (splitOnCRLF x) := by
  cases x with
  | nil => simp [splitOnCRLF, consHead]
  | cons d rest =>
    have h2 : ¬ (c = '\r' ∧ d = '\n') := by simpa using h
    simp [splitOnCRLF, h2]

theorem splitOnCRLF_single (x h : Str) (hx : splitOnCRLF x = [h]) : h = x := by
  induction x using splitOnCRLF.induct generalizing h with
  | case1 => simpa [splitOnCRLF] using hx.symm
  | case2 c => simpa [splitOnCRLF] using hx.symm
  | case3 c d rest hc ih =>
    simp [splitOnCRLF, hc, splitOnCRLF_ne_nil] at hx
  | case4 c d rest hc ih =>
    simp only [splitOnCRLF, hc, if_false] at hx
    cases hs : splitOnCRLF (d :: rest) with
    | nil => exact absurd hs (splitOnCRLF_ne_nil _)
    | cons h2 t =>
      rw [hs] at hx
      simp only [consHead, List.cons.injEq] at hx
      obtain ⟨rfl, rfl⟩ := hx
      rw [ih h2 hs]

/-- Splitting a text whose front part was already split: the complete lines
of the front part stay, and its remainder is split together with the rest. -/
theorem splitOnCRLF_append (a b : Str) :
    splitOnCRLF (a ++ b)
      = (splitOnCRLF a).dropLast ++ splitOnCRLF ((splitOnCRLF a).getLast?.getD [] ++ b) := by
  induction a using splitOnCRLF.induct with
  | case1 => simp [splitOnCRLF]
  | case2 c => simp [splitOnCRLF]
  | case3 c d rest hc ih =>
    have hne := splitOnCRLF_ne_nil rest
    cases hs : splitOnCRLF rest with
    | nil => exact absurd hs hne
    | cons h2 t =>
      rw [hs] at ih
      simp only [List.cons_append, splitOnCRLF, hc, and_self, if_true, hs]
      simpa [List.getLast?_cons_cons] using ih
  | case4 c d rest hc ih =>
    have hne := splitOnCRLF_ne_nil (d :: rest)
    have e1 : splitOnCRLF (c :: d :: rest ++ b) = consHead c (splitOnCRLF (d :: rest ++ b)) := by
      simp [splitOnCRLF, hc]
    have e2 : splitOnCRLF (c :: d :: rest) = consHead c (splitOnCRLF (d :: rest)) := by
      simp [splitOnCRLF, hc]
    rw [e1, e2, ih]
    cases hs : splitOnCRLF (d :: rest) with
    | nil => exact absurd hs hne
    | cons h2 t =>
      cases t with
      | nil =>
        have hh : h2 = d :: rest := splitOnCRLF_single _ _ hs
        subst hh
        simp [consHead, splitOnCRLF, hc]
      | cons h3 t2 =>
        simp [consHead, List.getLast?_cons_cons]

/-- The remainder kept after a split contains no delimiter. -/
theorem splitOnCRLF_getLast (a : Str) :
    splitOnCRLF ((splitOnCRLF a).getLast?.getD []) = [(splitOnCRLF a).getLast?.getD []] := by
  have h1 := splitOnCRLF_append a []
  simp only [List.append_nil] at h1
  cases hl : (splitOnCRLF a).getLast? with
  | none =>
    rw [List.getLast?_eq_none_iff] at hl
    exact absurd hl (splitOnCRLF_ne_nil a)
  | some l =>
    have h2 := List.dropLast_append_getLast? l hl
    rw [hl] at h1
    simp only [Option.getD_some] at h1 ⊢
    have h3 : (splitOnCRLF a).dropLast ++ splitOnCRLF l = (splitOnCRLF a).dropLast ++ [l] := by
      rw [← h1, h2]
    exact List.append_cancel_left h3

theorem LineBreakTransformer.feed_lines (t : LineBreakTransformer) (chunks : List Str) :
    (t.feed chunks).2 ++ splitOnCRLF (t.feed chunks).1.container
      = splitOnCRLF (t.container ++ chunks.flatten) := by
  induction chunks generalizing t with
  | nil => simp [LineBreakTransformer.feed]
  | cons chunk chunks ih =>
    simp only [LineBreakTransformer.feed, List.flatten_cons, List.append_assoc]
    rw [ih (t.transform chunk).1]
    simp only [LineBreakTransformer.transform, jsSplit_crlf]
    rw [← List.append_assoc t.container, splitOnCRLF_append (t.container ++ chunk)]

theorem LineBreakTransformer.feed_container (t : LineBreakTransformer) (chunks : List Str)
    (ht : splitOnCRLF t.container = [t.container]) :
    splitOnCRLF (t.feed chunks).1.container = [(t.feed chunks).1.container] := by
  induction chunks generalizing t with
  | nil => simpa [LineBreakTransformer.feed] using ht
  | cons chunk chunks ih =>
    simp only [LineBreakTransformer.feed]
    apply ih
    simp only [LineBreakTransformer.transform, jsSplit_crlf]
    exact splitOnCRLF_getLast _

/-! ## Facts about arrays -/

namespace JSArray

variable {α : Type}

theorem getD_setElem_self (i : Nat) (v : α) (l : List (Option α)) :
    (setElem i v l).getD i none = some v := by
  unfold setElem
  split
  · next h => simp [List.getD_eq_getElem?_getD, List.getElem?_set, h]
  · next h =>
    have h2 : l.length ≤ i := Nat.le_of_not_lt h
    simp [List.getD_eq_getElem?_getD, List.getElem?_append_right, h2]

theorem getD_setElem_ne (i j : Nat) (v : α) (l : List (Option α)) (hne : j ≠ i) :
    (setElem i v l).getD j none = l.getD j none := by
  unfold setElem
  split
  · next h =>
    simp [List.getD_eq_getElem?_getD, List.getElem?_set, Ne.symm hne]
  · next h =>
    have h2 : l.length ≤ i := Nat.le_of_not_lt h
    simp only [List.getD_eq_getElem?_getD, List.append_assoc]
    by_cases hj : j < l.length
    · rw [List.getElem?_append_left hj]
    · have h3 : l.length ≤ j := Nat.le_of_not_lt hj
      rw [List.getElem?_append_right h3, List.getElem?_eq_none h3]
      by_cases hj2 : j - l.length < i - l.length
      · rw [List.getElem?_append_left (by simpa using hj2)]
        simp [List.getElem?_replicate, hj2]
      · have h4 : i - l.length ≤ j - l.length := Nat.le_of_not_lt hj2
        rw [List.getElem?_append_right (by simpa using h4)]
        have h5 : j - l.length - (List.replicate (i - l.length) (none : Option α)).length ≠ 0 := by
          simp only [List.length_replicate]
          omega
        cases hk : j - l.length - (List.replicate (i - l.length) (none : Option α)).length with
        | zero => exact absurd hk h5
        | succ k => simp

theorem getProp_setProp_self (k : Num) (v : α) (l : List (Num × α)) :
    getProp k (setProp k v l) = some v := by
  induction l with
  | nil => simp [setProp, getProp]
  | cons p rest ih =>
    obtain ⟨k2, v2⟩ := p
    by_cases h : k2 = k <;> simp [setProp, getProp, h, ih]

theorem getProp_setProp_ne (k j : Num) (v : α) (l : List (Num × α)) (hne : j ≠ k) :
    getProp j (setProp k v l) = getProp j l := by
  induction l with
  | nil => simp [setProp, getProp, Ne.symm hne]
  | cons p rest ih =>
    obtain ⟨k2, v2⟩ := p
    by_cases h : k2 = k
    · subst h
      simp [setProp, getProp, Ne.symm hne]
    · by_cases h2 : k2 = j
      · subst h2
        simp [setProp, getProp, h]
      · simp [setProp, getProp, h, h2, ih]

theorem arrayIndex_inj (k j : Num) (i : Nat) (hk : k.arrayIndex? = some i)
    (hj : j.arrayIndex? = some i) : j = k := by
  have key : ∀ x : Num, x.arrayIndex? = some i → x = Num.int (Int.ofNat i) := by
    intro x hx
    match x, hx with
    | Num.int (Int.ofNat n), hx =>
      simp only [Num.arrayIndex?] at hx
      split at hx
      · simp only [Option.some.injEq] at hx
        rw [hx]
      · exact absurd hx (by simp)
    | Num.int (Int.negSucc n), hx => exact absurd hx (by simp [Num.arrayIndex?])
    | Num.nan, hx => exact absurd hx (by simp [Num.arrayIndex?])
  rw [key k hk, key j hj]

/-- Reading back the key that was written. -/
theorem get_set_self (a : JSArray α) (k : Num) (v : α) : (a.set k v).get k = some v := by
  unfold set get
  cases h : k.arrayIndex? with
  | none => simp [h, getProp_setProp_self]
  | some i => simpa [h] using getD_setElem_self i v a.elems

/-- A write leaves every other key as it was. -/
theorem get_set_ne (a : JSArray α) (k j : Num) (v : α) (hne : j ≠ k) :
    (a.set k v).get j = a.get j := by
  unfold set get
  cases h : k.arrayIndex? with
  | none =>
    cases h2 : j.arrayIndex? with
    | none => simp [h2, getProp_setProp_ne _ _ _ _ hne]
    | some i2 => simp [h2]
  | some i =>
    cases h2 : j.arrayIndex? with
    | none => simp [h2]
    | some i2 =>
      have hi : i2 ≠ i := by
        intro e
        subst e
        exact hne (arrayIndex_inj k j i2 h h2)
      simpa [h2] using getD_setElem_ne i i2 v a.elems hi

end JSArray

/-! ## Facts about the command encoder -/

theorem sends_append (a b : List Effect) : sends (a ++ b) = sends a ++ sends b := by
  simp [sends, List.filterMap_append]

theorem notifications_append (a b : List Effect) :
    notifications (a ++ b) = notifications a ++ notifications b := by
  simp [notifications, List.filterMap_append]

theorem reported_append (a b : List Effect) : reported (a ++ b) = reported a ++ reported b := by
  simp [reported, List.filterMap_append]

theorem padLeft_toStr (n : Nat) (h : n < 100) : padLeft (Num.int n).toStr '0' 2 = pad2 n := by
  have key : ∀ m : Fin 100, padLeft (Num.int m.val).toStr '0' 2 = pad2 m.val := by decide
  exact key ⟨n, h⟩

theorem padRight_substring (op : Str) : padRight (substring op 0 4) ' ' 4 = op4 op := by
  simp [padRight, substring, op4]

theorem fullUIMessage_eq (n d : Nat) (op : Str) (p : Option Str) (hn : n < 100) (hd : d < 100) :
    fullUIMessage (Num.int n) (Num.int d) op p ++ ['\n'] = encodeCommand n d op p := by
  simp only [fullUIMessage, encodeCommand, padLeft_toStr n hn, padLeft_toStr d hd,
    padRight_substring]

theorem LogToMonitor_sends (st : State) (k : Num) (msg : Str) :
    sends (Diagnostics.LogToMonitor st k msg).2 = [] := by
  unfold Diagnostics.LogToMonitor
  repeat' split
  all_goals simp [sends]

theorem LogToMonitor_nodes (st : State) (k : Num) (msg : Str) :
    (Diagnostics.LogToMonitor st k msg).1.nodes = st.nodes := by
  unfold Diagnostics.LogToMonitor
  repeat' split
  all_goals rfl

theorem Send_UItoRelayer_sends (st : State) (n d : Num) (op : Str) (p : Option Str) :
    sends (Send_UItoRelayer st n d (some op) p).2 = [fullUIMessage n d op p ++ ['\n']] := by
  unfold Send_UItoRelayer
  by_cases hl : st.dataLogging = true
  · simp only [hl, if_true, sends_append, LogToMonitor_sends]
    simp [sends]
  · simp [hl, sends]

theorem Send_UItoRelayer_nodes (st : State) (n d : Num) (op : Option Str) (p : Option Str) :
    (Send_UItoRelayer st n d op p).1.nodes = st.nodes := by
  unfold Send_UItoRelayer
  cases op with
  | none => rfl
  | some cmd =>
    by_cases hl : st.dataLogging = true
    · simp only [hl, if_true, LogToMonitor_nodes]
    · simp [hl]

/-! ## Facts about data frames -/

theorem splitAux_bar_cons (c : Char) (rest : Str) :
    splitAux bar 0 (c :: rest)
      = if c = '|' then [] :: splitAux bar 0 rest else consHead c (splitAux bar 0 rest) := by
  by_cases h : c = '|'
  · subst h
    simp [splitAux, bar]
  · have h2 : ¬ ('|' = c) := fun e => h e.symm
    simp [splitAux, bar, h, h2]

theorem jsSplit_bar_eq (s : Str) : jsSplit bar s = splitAux bar 0 s := by
  simp [jsSplit, bar]

/-- A text without a bar is a single field. -/
theorem jsSplit_bar_single (a : Str) (h : '|' ∉ a) : jsSplit bar a = [a] := by
  rw [jsSplit_bar_eq]
  induction a with
  | nil => simp [splitAux]
  | cons c rest ih =>
    have hc : c ≠ '|' := fun e => h (by simp [e])
    have hr : '|' ∉ rest := fun e => h (by simp [e])
    rw [splitAux_bar_cons, if_neg hc, ih hr]
    rfl

/-- The first field ends at the first bar. -/
theorem jsSplit_bar_append (a b : Str) (h : '|' ∉ a) :
    jsSplit bar (a ++ '|' :: b) = a :: jsSplit bar b := by
  rw [jsSplit_bar_eq, jsSplit_bar_eq]
  induction a with
  | nil => simp [splitAux_bar_cons]
  | cons c rest ih =>
    have hc : c ≠ '|' := fun e => h (by simp [e])
    have hr : '|' ∉ rest := fun e => h (by simp [e])
    rw [List.cons_append, splitAux_bar_cons, if_neg hc, ih hr]
    rfl

/-- The fields of a data frame. -/
theorem jsSplit_dataFrame (nn dd ts rest : Str) (hn : '|' ∉ nn) (hd : '|' ∉ dd)
    (ht : '|' ∉ ts) :
    jsSplit bar (dataFrame nn dd ts rest) = nn :: dd :: ts :: jsSplit bar rest := by
  unfold dataFrame
  rw [jsSplit_bar_append _ _ hn, jsSplit_bar_append _ _ hd, jsSplit_bar_append _ _ ht]

/-- With two-character ids the fixed offset is the position after the third
bar. -/
theorem frameValue_dataFrame (nn dd ts rest : Str) (fields : List Str)
    (hn : nn.length = 2) (hd : dd.length = 2) :
    frameValue (dataFrame nn dd ts rest) (nn :: dd :: ts :: fields) = rest := by
  match nn, hn, dd, hd with
  | [a, b], _, [c, d], _ =>
    simp only [frameValue, substringFrom, dataFrame, List.getD_cons_succ, List.getD_cons_zero,
      List.cons_append, List.nil_append, List.drop_succ_cons]
    simp

theorem dataFrame_not_sentinel (nn dd ts rest : Str) (hn : nn.length = 2) (hb : '|' ∉ nn) :
    startsWith (dataFrame nn dd ts rest) "NODE|".toList = false
      ∧ startsWith (dataFrame nn dd ts rest) "ERROR:".toList = false := by
  match nn, hn with
  | [a, b], _ =>
    constructor <;>
    · simp [startsWith, dataFrame, List.isPrefixOf]

/-- A data frame with two-character ids goes down the data path with the text
after the third bar as its value. -/
theorem ProcessRelayerMessage_dataFrame (st : State) (nn dd ts rest : Str)
    (hn : nn.length = 2) (hd : dd.length = 2)
    (hnb : '|' ∉ nn) (hdb : '|' ∉ dd) (htb : '|' ∉ ts) :
    ProcessRelayerMessage st (dataFrame nn dd ts rest)
      = match toBigInt ts with
        | none => (st, [Effect.showException Exn.badBigInt])
        | some timestamp =>
          valueMessage st (dataFrame nn dd ts rest) (nn :: dd :: ts :: jsSplit bar rest)
            (parseInt nn) (parseInt dd) timestamp rest := by
  obtain ⟨h1, h2⟩ := dataFrame_not_sentinel nn dd ts rest hn hnb
  have hlen : ¬ ((nn :: dd :: ts :: jsSplit bar rest).length < 4) := by
    have := List.length_pos.mpr (jsSplit_ne_nil bar (by simp [bar]) rest)
    simp only [List.length_cons]
    omega
  simp only [ProcessRelayerMessage, h1, h2, dataMessage, jsSplit_dataFrame nn dd ts rest hnb hdb htb,
    hlen, if_false, Bool.false_eq_true, List.getD_cons_zero, List.getD_cons_succ,
    frameValue_dataFrame nn dd ts rest _ hn hd]

/-! ## Facts about timestamps -/

theorem isWhiteSpace_digit (c : Char) (h : 48 ≤ c.toNat ∧ c.toNat ≤ 57) :
    isWhiteSpace c = false := by
  simp only [isWhiteSpace, Bool.or_eq_false_iff, Bool.and_eq_false_imp, decide_eq_false_iff_not,
    decide_eq_true_eq]
  omega

theorem dropWhile_head {p : Char → Bool} (l : Str)
    (h : ∀ c, l.head? = some c → p c = false) : l.dropWhile p = l := by
  cases l with
  | nil => rfl
  | cons c rest => simp [List.dropWhile, h c rfl]

theorem trim_decimal (ts : Str) (h : isDecimal ts) : trim ts = ts := by
  obtain ⟨hne, hd⟩ := h
  unfold trim
  rw [dropWhile_head ts, dropWhile_head ts.reverse, List.reverse_reverse]
  · intro c hc
    apply isWhiteSpace_digit
    apply hd
    have : c ∈ ts.reverse := List.mem_of_mem_head? hc
    simpa using this
  · intro c hc
    apply isWhiteSpace_digit
    exact hd c (List.mem_of_mem_head? hc)

theorem radixDigit_decimal (c : Char) (h : 48 ≤ c.toNat ∧ c.toNat ≤ 57) :
    radixDigit 10 c = some (c.toNat - 48) := by
  have h2 : c.toNat - 48 < 10 := by omega
  simp [radixDigit, digitVal, h, h2]

theorem allDigits_decimal (ts : Str) (hd : ∀ c ∈ ts, 48 ≤ c.toNat ∧ c.toNat ≤ 57) :
    allDigits 10 ts = some (ts.map (fun c => c.toNat - 48)) := by
  induction ts with
  | nil => rfl
  | cons c rest ih =>
    have h1 := radixDigit_decimal c (hd c (by simp))
    have h2 := ih (fun x hx => hd x (by simp [hx]))
    simp [allDigits, h1, h2]

theorem foldl_decimal (ts : Str) (acc : Nat) :
    List.foldl (fun a d => a * 10 + d) acc (ts.map (fun c => c.toNat - 48))
      = acc * 10 ^ ts.length + decimalValue ts := by
  induction ts generalizing acc with
  | nil => simp [decimalValue]
  | cons c rest ih =>
    simp only [List.map_cons, List.foldl_cons, ih, decimalValue, List.length_cons]
    ring

theorem wholeNumber_decimal (ts : Str) (h : isDecimal ts) :
    wholeNumber 10 ts = some (decimalValue ts) := by
  obtain ⟨hne, hd⟩ := h
  simp [wholeNumber, hne, allDigits_decimal ts hd, digitsValue, foldl_decimal]

/-- `BigInt` reads a string of decimal digits as the integer it denotes. -/
theorem toBigInt_decimal (ts : Str) (h : isDecimal ts) :
    toBigInt ts = some (decimalValue ts : Int) := by
  have hw := wholeNumber_decimal ts h
  obtain ⟨hne, hd⟩ := h
  cases ts with
  | nil => exact absurd rfl hne
  | cons c rest =>
    have hc := hd c (by simp)
    have hsec : ∀ x : Char, ¬ (48 ≤ x.toNat ∧ x.toNat ≤ 57) →
        startsWith (c :: rest) ['0', x] = false := by
      intro x hx
      cases rest with
      | nil => simp [startsWith, List.isPrefixOf]
      | cons d r =>
        have hdd := hd d (by simp)
        have : ¬ (x = d) := by
          intro e
          subst e
          exact hx hdd
        simp [startsWith, List.isPrefixOf, this]
    have hminus : c ≠ '-' := by
      intro e
      subst e
      revert hc
      decide
    have hplus : c ≠ '+' := by
      intro e
      subst e
      revert hc
      decide
    unfold toBigInt
    rw [trim_decimal (c :: rest) ⟨hne, hd⟩]
    simp only [hsec 'x' (by decide), hsec 'X' (by decide), hsec 'o' (by decide),
      hsec 'O' (by decide), hsec 'b' (by decide), hsec 'B' (by decide)]
    simp only [reduceCtorEq, if_false, Bool.or_self, Bool.false_eq_true]
    split
    · next r heq =>
      simp only [List.cons.injEq] at heq
      exact absurd heq.1 hminus
    · next r heq =>
      simp only [List.cons.injEq] at heq
      exact absurd heq.1 hplus
    · rw [hw]
      rfl

theorem digitChar_toNat (k : Nat) (h : k < 10) : (Nat.digitChar k).toNat = 48 + k := by
  have key : ∀ m : Fin 10, (Nat.digitChar m.val).toNat = 48 + m.val := by decide
  exact key ⟨k, h⟩

theorem toDigitsCore_decimal (fuel n : Nat) (ds : Str) (hf : n < fuel)
    (hds : ∀ c ∈ ds, 48 ≤ c.toNat ∧ c.toNat ≤ 57) :
    (∀ c ∈ Nat.toDigitsCore 10 fuel n ds, 48 ≤ c.toNat ∧ c.toNat ≤ 57)
      ∧ Nat.toDigitsCore 10 fuel n ds ≠ []
      ∧ decimalValue (Nat.toDigitsCore 10 fuel n ds) = n * 10 ^ ds.length + decimalValue ds := by
  induction fuel generalizing n ds with
  | zero => omega
  | succ fuel ih =>
    have hmod : n % 10 < 10 := Nat.mod_lt _ (by decide)
    have hch := digitChar_toNat (n % 10) hmod
    have hds2 : ∀ c ∈ Nat.digitChar (n % 10) :: ds, 48 ≤ c.toNat ∧ c.toNat ≤ 57 := by
      intro c hc
      simp only [List.mem_cons] at hc
      rcases hc with hc | hc
      · subst hc
        omega
      · exact hds c hc
    by_cases h0 : n / 10 = 0
    · simp only [Nat.toDigitsCore, h0, if_true]
      refine ⟨hds2, by simp, ?_⟩
      have hn : n % 10 = n := by omega
      simp only [decimalValue, hch]
      rw [hn]
      congr 1
      rw [Nat.add_sub_cancel_left]
    · simp only [Nat.toDigitsCore, h0, if_false]
      have hlt : n / 10 < fuel := by omega
      obtain ⟨h1, h2, h3⟩ := ih (n / 10) (Nat.digitChar (n % 10) :: ds) hlt hds2
      refine ⟨h1, h2, ?_⟩
      rw [h3]
      simp only [decimalValue, hch, List.length_cons, Nat.add_sub_cancel_left]
      have hdm := Nat.div_add_mod n 10
      calc n / 10 * 10 ^ (ds.length + 1) + (n % 10 * 10 ^ ds.length + decimalValue ds)
          = (10 * (n / 10) + n % 10) * 10 ^ ds.length + decimalValue ds := by ring
        _ = n * 10 ^ ds.length + decimalValue ds := by rw [hdm]

/-- The decimal rendering of a natural number is a string of decimal digits
that denotes this number. -/
theorem toDigits_decimal (n : Nat) :
    isDecimal (Nat.toDigits 10 n) ∧ decimalValue (Nat.toDigits 10 n) = n := by
  obtain ⟨h1, h2, h3⟩ := toDigitsCore_decimal (n + 1) n [] (by omega) (by simp)
  refine ⟨⟨h2, h1⟩, ?_⟩
  simp only [Nat.toDigits, h3]
  simp [decimalValue]

/-! ## Facts about effects -/

theorem sends_of_report (effs : List Effect) (h : ∀ e ∈ effs, e.isReport = true) :
    sends effs = [] := by
  induction effs with
  | nil => rfl
  | cons e rest ih =>
    have he := h e (by simp)
    have hr := ih (fun x hx => h x (by simp [hx]))
    cases e <;> simp_all [sends, Effect.isReport]

theorem notifications_of_report (effs : List Effect) (h : ∀ e ∈ effs, e.isReport = true) :
    notifications effs = [] := by
  induction effs with
  | nil => rfl
  | cons e rest ih =>
    have he := h e (by simp)
    have hr := ih (fun x hx => h x (by simp [hx]))
    cases e <;> simp_all [notifications, Effect.isReport]

theorem LogToMonitor_report (st : State) (k : Num) (msg : Str) :
    ∀ e ∈ (Diagnostics.LogToMonitor st k msg).2, e.isReport = true := by
  unfold Diagnostics.LogToMonitor
  repeat' split
  all_goals simp [Effect.isReport]

theorem UpdateDevices_report (st : State) (k : Num) :
    ∀ e ∈ Diagnostics.UpdateDevices st k, e.isReport = true := by
  unfold Diagnostics.UpdateDevices
  repeat' split
  all_goals simp [Effect.isReport]

theorem AddNode_report (st : State) (i : Nat) :
    ∀ e ∈ (Diagnostics.AddNode st i).2, e.isReport = true := by
  unfold Diagnostics.AddNode
  split <;> simp [Effect.isReport]

theorem buildLoop_report (l : List Nat) (st : State) (effs : List Effect) (n : Nat)
    (h : ∀ e ∈ effs, e.isReport = true) :
    ∀ e ∈ (Diagnostics.buildLoop l (st, effs, n)).2.1, e.isReport = true := by
  induction l generalizing st effs n with
  | nil => simpa [Diagnostics.buildLoop] using h
  | cons i rest ih =>
    unfold Diagnostics.buildLoop
    split
    · exact ih st effs n h
    · apply ih
      intro e he
      simp only [List.mem_append] at he
      rcases he with (he | he) | he
      · exact h e he
      · exact AddNode_report _ _ e he
      · exact UpdateDevices_report _ _ e he

theorem BuildSystem_report (st : State) :
    ∀ e ∈ (Diagnostics.BuildSystem st).2, e.isReport = true := by
  intro e he
  simp only [Diagnostics.BuildSystem, List.mem_append, List.mem_singleton] at he
  rcases he with he | he
  · exact buildLoop_report _ _ _ _ (by simp) e he
  · subst he
    rfl

theorem deviceFieldMessage_report (st : State) (n d : Num) (f : Device → Device) :
    ∀ e ∈ (deviceFieldMessage st n d f).2, e.isReport = true := by
  unfold deviceFieldMessage
  split
  · simp [Effect.isReport]
  · exact UpdateDevices_report _ _

theorem nodeInfoMessage_report (st : State) (n : Num) (fields : List Str) :
    ∀ e ∈ (nodeInfoMessage st n fields).2, e.isReport = true := by
  intro e he
  simp only [nodeInfoMessage, List.mem_append] at he
  rcases he with he | he
  · exact BuildSystem_report _ e he
  · exact LogToMonitor_report _ _ _ e he

theorem deviceInfoMessage_report (st : State) (n d : Num) (value : Str) :
    ∀ e ∈ (deviceInfoMessage st n d value).2, e.isReport = true := by
  unfold deviceInfoMessage
  split
  · simp
  · intro e he
    simp only [List.mem_append, List.mem_singleton] at he
    rcases he with he | he
    · exact UpdateDevices_report _ _ e he
    · subst he
      rfl

theorem nodeNameMessage_report (st : State) (n : Num) (value : Str) :
    ∀ e ∈ (nodeNameMessage st n value).2, e.isReport = true := by
  unfold nodeNameMessage
  split <;> simp [Effect.isReport]

theorem nodeVersionMessage_report (st : State) (n : Num) (value : Str) :
    ∀ e ∈ (nodeVersionMessage st n value).2, e.isReport = true := by
  unfold nodeVersionMessage
  split
  · simp [Effect.isReport]
  · exact BuildSystem_report _

theorem Quiet_ite (c : Prop) [Decidable c] (a b : State × List Effect)
    (ha : Quiet a) (hb : Quiet b) : Quiet (if c then a else b) := by
  split <;> assumption

/-- The chain of tests on a non-numeric value sends nothing and triggers no
notification: all its effects stay inside the console. -/
theorem dispatchMessage_report (st : State) (n d : Num) (value : Str) (fields : List Str) :
    ∀ e ∈ (dispatchMessage st n d value fields).2, e.isReport = true := by
  have h : Quiet (dispatchMessage st n d value fields) := by
    unfold dispatchMessage
    repeat' apply Quiet_ite
    all_goals first
      | exact nodeInfoMessage_report _ _ _
      | exact deviceInfoMessage_report _ _ _ _
      | exact nodeNameMessage_report _ _ _
      | exact nodeVersionMessage_report _ _ _
      | exact deviceFieldMessage_report _ _ _ _
      | exact LogToMonitor_report _ _ _
      | (intro e he; simp at he)
  exact h

theorem isNumericValue_iff (v : Str) : isNumericValue v = true ↔ startsNumeric v := by
  cases v with
  | nil => simp [isNumericValue, startsNumeric]
  | cons c rest =>
    have key : (48 ≤ c.toNat ∧ c.toNat ≤ 57)
        ↔ c ∈ ['0', '1', '2', '3', '4', '5', '6', '7', '8', '9'] := by
      constructor
      · intro h
        have hc : c = Char.ofNat c.toNat := (Char.ofNat_toNat c).symm
        obtain ⟨h1, h2⟩ := h
        generalize c.toNat = n at hc h1 h2
        subst hc
        interval_cases n <;> decide
      · intro h
        simp only [List.mem_cons, List.mem_singleton, List.not_mem_nil, or_false] at h
        rcases h with h | h | h | h | h | h | h | h | h | h <;> subst h <;> decide
    simp only [isNumericValue, List.head?_cons, startsNumeric, Bool.or_eq_true, decide_eq_true_eq,
      Bool.and_eq_true, key]

/-- The notifications of a parsed data string. -/
theorem valueMessage_notifications (st : State) (line : Str) (fields : List Str) (n d : Num)
    (t : Int) (v : Str) :
    notifications (valueMessage st line fields n d t v).2
      = if isNumericValue v = true then [(n, d, t, v)] else [] := by
  have hlog : notifications
      (if st.dataLogging = true then Diagnostics.LogToMonitor st n ("──▶ ".toList ++ line)
        else (st, [])).2 = [] := by
    split
    · exact notifications_of_report _ (LogToMonitor_report _ _ _)
    · rfl
  unfold valueMessage
  by_cases hv : isNumericValue v = true
  · simp only [hv, if_true, notifications_append, hlog]
    simp [notifications]
  · simp only [hv, if_false, notifications_append, hlog, Bool.false_eq_true]
    simpa using notifications_of_report _ (dispatchMessage_report _ _ _ _ _)

theorem not_bar_of_decimal (ts : Str) (h : isDecimal ts) : '|' ∉ ts := by
  intro hm
  have := h.2 _ hm
  revert this
  decide

/-- The notifications of a data frame with a decimal timestamp. -/
theorem dataFrame_notifications (st : State) (nn dd ts rest : Str)
    (hn : nn.length = 2) (hd : dd.length = 2) (hnb : '|' ∉ nn) (hdb : '|' ∉ dd)
    (hts : isDecimal ts) :
    notifications (ProcessRelayerMessage st (dataFrame nn dd ts rest)).2
      = if isNumericValue rest = true
        then [(parseInt nn, parseInt dd, (decimalValue ts : Int), rest)] else [] := by
  rw [ProcessRelayerMessage_dataFrame st nn dd ts rest hn hd hnb hdb (not_bar_of_decimal ts hts),
    toBigInt_decimal ts hts]
  exact valueMessage_notifications _ _ _ _ _ _ _

/-! ## Facts about the registry -/

theorem AddNode_slotData (st : State) (i : Nat) (k : Num) :
    slotData ((Diagnostics.AddNode st i).1.nodes.get k) = slotData (st.nodes.get k) := by
  unfold Diagnostics.AddNode
  cases h : st.nodes.get (Num.int i) with
  | none => rfl
  | some node =>
    by_cases hk : k = Num.int i
    · subst hk
      simp [JSArray.get_set_self, h, slotData]
    · simp [JSArray.get_set_ne _ _ _ _ hk]

theorem buildLoop_slotData (l : List Nat) (st : State) (effs : List Effect) (n : Nat)
    (k : Num) :
    slotData ((Diagnostics.buildLoop l (st, effs, n)).1.nodes.get k)
      = slotData (st.nodes.get k) := by
  induction l generalizing st effs n with
  | nil => rfl
  | cons i rest ih =>
    unfold Diagnostics.buildLoop
    split
    · exact ih st effs n
    · rw [ih]
      have h := AddNode_slotData st i k
      split <;> exact h

/-- `Diagnostics.BuildSystem` changes nothing in a registry slot but the
monitor reference. -/
theorem BuildSystem_slotData (st : State) (k : Num) :
    slotData ((Diagnostics.BuildSystem st).1.nodes.get k) = slotData (st.nodes.get k) := by
  simp only [Diagnostics.BuildSystem]
  exact buildLoop_slotData _ _ _ _ _

theorem valueMessage_nonNumeric (st : State) (line : Str) (fields : List Str) (n d : Num)
    (t : Int) (v : Str) (hv : isNumericValue v = false) :
    valueMessage st line fields n d t v
      = ((dispatchMessage
            (if st.dataLogging = true then
              Diagnostics.LogToMonitor st n ("──▶ ".toList ++ line) else (st, [])).1
            n d v fields).1,
         (if st.dataLogging = true then
              Diagnostics.LogToMonitor st n ("──▶ ".toList ++ line) else (st, [])).2
          ++ (dispatchMessage
            (if st.dataLogging = true then
              Diagnostics.LogToMonitor st n ("──▶ ".toList ++ line) else (st, [])).1
            n d v fields).2) := by
  simp [valueMessage, hv]

theorem logged_nodes (st : State) (n : Num) (msg : Str) :
    (if st.dataLogging = true then Diagnostics.LogToMonitor st n msg else (st, [])).1.nodes
      = st.nodes := by
  split
  · exact LogToMonitor_nodes _ _ _
  · rfl

theorem LogToMonitor_unknown (st : State) (n : Num) (msg : Str) (h : st.nodes.get n = none) :
    Diagnostics.LogToMonitor st n msg = (st, []) := by
  simp [Diagnostics.LogToMonitor, h]

theorem deviceInfoMessage_nodes (st : State) (n d : Num) (value : Str) (node : Node)
    (h : st.nodes.get n = some node) :
    (deviceInfoMessage st n d value).1.nodes
      = st.nodes.set n
          { node with
              devices := node.devices.set d
                { name := (jsSplit bar (substringFrom value 7))[0]?
                  version := (jsSplit bar (substringFrom value 7))[1]?
                  ipEnabled := (jsSplit bar (substringFrom value 7))[2]?
                  ppEnabled := (jsSplit bar (substringFrom value 7))[3]?
                  rate := (jsSplit bar (substringFrom value 7))[4]? } } := by
  simp [deviceInfoMessage, h]

theorem jsSplit_deviceInfoValue (a b c d e : Str) (ha : '|' ∉ a) (hb : '|' ∉ b)
    (hc : '|' ∉ c) (hd : '|' ∉ d) (he : '|' ∉ e) :
    jsSplit bar (substringFrom (deviceInfoValue a b c d e) 7) = [a, b, c, d, e] := by
  have h0 : substringFrom (deviceInfoValue a b c d e) 7
      = a ++ '|' :: (b ++ '|' :: (c ++ '|' :: (d ++ '|' :: e))) := by
    simp [substringFrom, deviceInfoValue]
  rw [h0, jsSplit_bar_append _ _ ha, jsSplit_bar_append _ _ hb, jsSplit_bar_append _ _ hc,
    jsSplit_bar_append _ _ hd, jsSplit_bar_single _ he]

theorem dispatch_deviceInfoValue (st : State) (n d : Num) (a b c d2 e : Str)
    (fields : List Str) :
    dispatchMessage st n d (deviceInfoValue a b c d2 e) fields
      = deviceInfoMessage st n d (deviceInfoValue a b c d2 e) := by
  simp [dispatchMessage, deviceInfoValue, startsWith, List.isPrefixOf]

theorem nodeInfoMessage_slotData (st : State) (n : Num) (fields : List Str) (k : Num) :
    slotData ((nodeInfoMessage st n fields).1.nodes.get k)
      = slotData ((st.nodes.set n
          { (match st.nodes.get n with
              | some node => node
              | none => newNode) with
            name := some (substringFrom (fields.getD 3 []) 7)
            version := fields[4]?
            macAddress := fields[5]?
            numDevices := parseIntValue fields[6]? }).get k) := by
  simp only [nodeInfoMessage, LogToMonitor_nodes, BuildSystem_slotData]

theorem dispatch_nodeInfoValue (st : State) (n d : Num) (name version mac count : Str)
    (fields : List Str) :
    dispatchMessage st n d (nodeInfoValue name version mac count) fields
      = nodeInfoMessage st n fields := by
  simp [dispatchMessage, nodeInfoValue, startsWith, List.isPrefixOf]

theorem jsSplit_nodeInfoValue (name version mac count : Str) (h1 : '|' ∉ name)
    (h2 : '|' ∉ version) (h3 : '|' ∉ mac) (h4 : '|' ∉ count) :
    jsSplit bar (nodeInfoValue name version mac count)
      = ["NOINFO=".toList ++ name, version, mac, count] := by
  have h0 : nodeInfoValue name version mac count
      = ("NOINFO=".toList ++ name) ++ '|' :: (version ++ '|' :: (mac ++ '|' :: count)) := by
    simp [nodeInfoValue]
  have h5 : '|' ∉ "NOINFO=".toList ++ name := by
    simp only [List.mem_append, not_or]
    exact ⟨by decide, h1⟩
  rw [h0, jsSplit_bar_append _ _ h5, jsSplit_bar_append _ _ h2, jsSplit_bar_append _ _ h3,
    jsSplit_bar_single _ h4]

/-! ## Facts about short and malformed lines -/

theorem consHead_length (c : Char) (l : List Str) (h : l ≠ []) :
    (consHead c l).length = l.length := by
  cases l with
  | nil => exact absurd rfl h
  | cons a t => rfl

/-- The number of fields is the number of bars plus one. -/
theorem jsSplit_bar_length (s : Str) : (jsSplit bar s).length = s.count '|' + 1 := by
  rw [jsSplit_bar_eq]
  induction s with
  | nil => rfl
  | cons c rest ih =>
    rw [splitAux_bar_cons]
    by_cases h : c = '|'
    · subst h
      simp [ih]
    · have h2 : ¬ (c == '|') = true := by simpa using h
      rw [if_neg h, consHead_length _ _ (splitAux_ne_nil _ _ _), ih, List.count_cons]
      simp [h2]

theorem ProcessRelayerMessage_short (st : State) (line : Str)
    (h1 : startsWith line "NODE|".toList = false) (h2 : startsWith line "ERROR:".toList = false)
    (h3 : (jsSplit bar line).length < 4) :
    ProcessRelayerMessage st line = (st, []) := by
  simp only [ProcessRelayerMessage, h1, h2, dataMessage, h3, if_true, if_false,
    Bool.false_eq_true]

theorem ProcessRelayerMessage_badBigInt (st : State) (line : Str)
    (h1 : startsWith line "NODE|".toList = false) (h2 : startsWith line "ERROR:".toList = false)
    (h3 : 4 ≤ (jsSplit bar line).length)
    (h4 : toBigInt ((jsSplit bar line).getD 2 []) = none) :
    ProcessRelayerMessage st line = (st, [Effect.showException Exn.badBigInt]) := by
  have h5 : ¬ (jsSplit bar line).length < 4 := Nat.not_lt.mpr h3
  simp only [ProcessRelayerMessage, h1, h2, dataMessage, h5, if_false, Bool.false_eq_true, h4]

/-! ## Facts about writes to existing keys -/

namespace JSArray

variable {α : Type}

theorem lt_of_getD_some (i : Nat) (v : α) (l : List (Option α))
    (h : l.getD i none = some v) : i < l.length := by
  by_contra hlt
  have h2 : l.length ≤ i := Nat.le_of_not_lt hlt
  simp [List.getD_eq_getElem?_getD, List.getElem?_eq_none h2] at h

theorem setElem_same (i : Nat) (v : α) (l : List (Option α))
    (h : l.getD i none = some v) : setElem i v l = l := by
  have hlt := lt_of_getD_some i v l h
  simp only [setElem, hlt, if_true]
  apply List.ext_getElem?
  intro j
  by_cases hj : i = j
  · subst hj
    simp only [List.getD_eq_getElem?_getD, List.getElem?_eq_getElem hlt, Option.getD_some] at h
    simp [List.getElem?_set, hlt, h]
  · simp [List.getElem?_set, hj]

theorem setElem_isSome (i : Nat) (v w : α) (l : List (Option α))
    (h : l.getD i none = some v) :
    (setElem i w l).map Option.isSome = l.map Option.isSome := by
  have hlt := lt_of_getD_some i v l h
  simp only [setElem, hlt, if_true]
  apply List.ext_getElem?
  intro j
  by_cases hj : i = j
  · subst hj
    simp only [List.getD_eq_getElem?_getD, List.getElem?_eq_getElem hlt, Option.getD_some] at h
    simp [List.getElem?_set, hlt, h]
  · simp [List.getElem?_set, hj]

theorem setProp_same (k : Num) (v : α) (l : List (Num × α)) (h : getProp k l = some v) :
    setProp k v l = l := by
  induction l with
  | nil => simp [getProp] at h
  | cons p rest ih =>
    obtain ⟨k2, v2⟩ := p
    by_cases hk : k2 = k
    · subst hk
      simp only [getProp, if_true, Option.some.injEq] at h
      simp [setProp, h]
    · simp only [getProp, hk, if_false] at h
      simp [setProp, hk, ih h]

theorem setProp_length (k : Num) (v w : α) (l : List (Num × α)) (h : getProp k l = some v) :
    (setProp k w l).length = l.length := by
  induction l with
  | nil => simp [getProp] at h
  | cons p rest ih =>
    obtain ⟨k2, v2⟩ := p
    by_cases hk : k2 = k
    · simp [setProp, hk]
    · simp only [getProp, hk, if_false] at h
      simp [setProp, hk, ih h]

/-- Writing to a key the value it holds changes nothing. -/
theorem set_same (a : JSArray α) (k : Num) (v : α) (h : a.get k = some v) :
    a.set k v = a := by
  unfold get at h
  unfold set
  cases hk : k.arrayIndex? with
  | none =>
    rw [hk] at h
    simp only at h ⊢
    rw [setProp_same k v a.props h]
  | some i =>
    rw [hk] at h
    simp only at h ⊢
    rw [setElem_same i v a.elems h]

/-- Writing to a key that holds a record keeps the number of records. -/
theorem set_count (a : JSArray α) (k : Num) (v w : α) (h : a.get k = some v) :
    (a.set k w).count = a.count := by
  unfold get at h
  unfold set count
  cases hk : k.arrayIndex? with
  | none =>
    rw [hk] at h
    simp only at h ⊢
    rw [setProp_length k v w a.props h]
  | some i =>
    rw [hk] at h
    simp only at h ⊢
    rw [setElem_isSome i v w a.elems h]

end JSArray

/-! ## Facts about the branches of the chain -/

theorem logData_nodes (st : State) (n : Num) (line : Str) :
    (logData st n line).1.nodes = st.nodes := by
  unfold logData
  split
  · exact LogToMonitor_nodes _ _ _
  · rfl

theorem logData_report (st : State) (n : Num) (line : Str) :
    ∀ e ∈ (logData st n line).2, e.isReport = true := by
  unfold logData
  split
  · exact LogToMonitor_report _ _ _
  · simp

theorem logData_off (st : State) (n : Num) (line : Str) (h : st.dataLogging = false) :
    logData st n line = (st, []) := by
  simp [logData, h]

/-- A data frame with a decimal timestamp and a non-numeric value: logging,
then the chain of tests. -/
theorem dataFrame_dispatch (st : State) (nn dd ts value : Str)
    (hn : nn.length = 2) (hd : dd.length = 2) (hnb : '|' ∉ nn) (hdb : '|' ∉ dd)
    (hts : isDecimal ts) (hv : isNumericValue value = false) :
    ProcessRelayerMessage st (dataFrame nn dd ts value)
      = ((dispatchMessage (logData st (parseInt nn) (dataFrame nn dd ts value)).1
            (parseInt nn) (parseInt dd) value (nn :: dd :: ts :: jsSplit bar value)).1,
         (logData st (parseInt nn) (dataFrame nn dd ts value)).2
          ++ (dispatchMessage (logData st (parseInt nn) (dataFrame nn dd ts value)).1
            (parseInt nn) (parseInt dd) value (nn :: dd :: ts :: jsSplit bar value)).2) := by
  rw [ProcessRelayerMessage_dataFrame st nn dd ts _ hn hd hnb hdb (not_bar_of_decimal ts hts),
    toBigInt_decimal ts hts]
  simp only
  rw [valueMessage_nonNumeric _ _ _ _ _ _ _ hv]
  rfl

/-- A data frame with a decimal timestamp and a numeric value: logging, then
the notification. -/
theorem dataFrame_numeric (st : State) (nn dd ts value : Str)
    (hn : nn.length = 2) (hd : dd.length = 2) (hnb : '|' ∉ nn) (hdb : '|' ∉ dd)
    (hts : isDecimal ts) (hv : isNumericValue value = true) :
    ProcessRelayerMessage st (dataFrame nn dd ts value)
      = ((logData st (parseInt nn) (dataFrame nn dd ts value)).1,
         (logData st (parseInt nn) (dataFrame nn dd ts value)).2
          ++ [Effect.deviceData (parseInt nn) (parseInt dd) (decimalValue ts : Int) value]) := by
  rw [ProcessRelayerMessage_dataFrame st nn dd ts _ hn hd hnb hdb (not_bar_of_decimal ts hts),
    toBigInt_decimal ts hts]
  simp only [valueMessage, hv, if_true]
  rfl

theorem FieldUpdate.value_nonNumeric (u : FieldUpdate) : isNumericValue u.value = false := by
  cases u <;> simp [FieldUpdate.value, isNumericValue]

theorem dispatch_nodeName (st : State) (n d : Num) (x : Str) (fields : List Str) :
    dispatchMessage st n d (FieldUpdate.nodeName x).value fields
      = nodeNameMessage st n ("NONAME=".toList ++ x) := by
  simp [dispatchMessage, FieldUpdate.value, startsWith, List.isPrefixOf]

/-- The chain of tests leads each Device update to the assignment of its
field. -/
theorem dispatch_deviceUpdate (st : State) (n d : Num) (u : FieldUpdate) (fields : List Str)
    (hu : u.deviceScoped = true) :
    dispatchMessage st n d u.value fields = deviceFieldMessage st n d u.onDevice := by
  cases u with
  | nodeName x => simp [FieldUpdate.deviceScoped] at hu
  | deviceName x =>
    simp [dispatchMessage, FieldUpdate.value, startsWith, List.isPrefixOf, substringFrom]
    rfl
  | rate x =>
    simp [dispatchMessage, FieldUpdate.value, startsWith, List.isPrefixOf, substringFrom]
    rfl
  | ipEnabled =>
    simp [dispatchMessage, FieldUpdate.value, startsWith, List.isPrefixOf]
    rfl
  | ipDisabled =>
    simp [dispatchMessage, FieldUpdate.value, startsWith, List.isPrefixOf]
    rfl
  | ppEnabled =>
    simp [dispatchMessage, FieldUpdate.value, startsWith, List.isPrefixOf]
    rfl
  | ppDisabled =>
    simp [dispatchMessage, FieldUpdate.value, startsWith, List.isPrefixOf]
    rfl

theorem nodeNameMessage_known (st : State) (n : Num) (value : Str) (node : Node)
    (h : st.nodes.get n = some node) :
    nodeNameMessage st n value
      = ({ st with
            nodes := st.nodes.set n { node with name := some (substringFrom value 7) } },
          [Effect.showException Exn.typeError]) := by
  simp [nodeNameMessage, h]

theorem nodeNameMessage_unknown (st : State) (n : Num) (value : Str)
    (h : st.nodes.get n = none) :
    nodeNameMessage st n value = (st, [Effect.showException Exn.typeError]) := by
  simp [nodeNameMessage, h]

theorem deviceFieldMessage_known (st : State) (n d : Num) (f : Device → Device)
    (node : Node) (dev : Device)
    (h : st.nodes.get n = some node) (h2 : node.devices.get d = some dev) :
    (deviceFieldMessage st n d f).1.nodes
      = st.nodes.set n { node with devices := node.devices.set d (f dev) } := by
  simp [deviceFieldMessage, updateDevice, h, h2]

theorem deviceFieldMessage_unknown (st : State) (n d : Num) (f : Device → Device)
    (h : st.nodes.get n = none
      ∨ ∃ node : Node, st.nodes.get n = some node ∧ node.devices.get d = none) :
    deviceFieldMessage st n d f = (st, [Effect.showException Exn.typeError]) := by
  rcases h with h | ⟨node, h, h2⟩
  · simp [deviceFieldMessage, updateDevice, h]
  · simp [deviceFieldMessage, updateDevice, h, h2]

theorem onlyDeviceChanged_set (nodes : JSArray Node) (n d : Num) (node : Node) (dev2 : Device)
    (h : nodes.get n = some node) :
    OnlyDeviceChanged nodes
      (nodes.set n { node with devices := node.devices.set d dev2 }) n d dev2 := by
  refine ⟨node, _, h, JSArray.get_set_self _ _ _, ?_, ?_, rfl, rfl, rfl, rfl, rfl, ?_⟩
  · exact JSArray.get_set_self _ _ _
  · intro j hj
    exact JSArray.get_set_ne _ _ _ _ hj
  · intro k hk
    exact JSArray.get_set_ne _ _ _ _ hk

/-- The registry after a Device update frame whose Node and Device exist. -/
theorem dataFrame_deviceUpdate (st : State) (nn dd ts : Str) (u : FieldUpdate)
    (node : Node) (dev : Device)
    (hn : nn.length = 2) (hd : dd.length = 2) (hnb : '|' ∉ nn) (hdb : '|' ∉ dd)
    (hts : isDecimal ts) (hu : u.deviceScoped = true)
    (hnode : st.nodes.get (parseInt nn) = some node)
    (hdev : node.devices.get (parseInt dd) = some dev) :
    (ProcessRelayerMessage st (dataFrame nn dd ts u.value)).1.nodes
      = st.nodes.set (parseInt nn)
          { node with devices := node.devices.set (parseInt dd) (u.onDevice dev) } := by
  rw [dataFrame_dispatch st nn dd ts _ hn hd hnb hdb hts u.value_nonNumeric]
  simp only [dispatch_deviceUpdate _ _ _ u _ hu]
  rw [deviceFieldMessage_known _ _ _ _ node dev (by rw [logData_nodes]; exact hnode) hdev,
    logData_nodes]

/-- The registry after a Node rename frame whose Node exists. -/
theorem dataFrame_nodeName (st : State) (nn dd ts x : Str) (node : Node)
    (hn : nn.length = 2) (hd : dd.length = 2) (hnb : '|' ∉ nn) (hdb : '|' ∉ dd)
    (hts : isDecimal ts) (hnode : st.nodes.get (parseInt nn) = some node) :
    (ProcessRelayerMessage st (dataFrame nn dd ts (FieldUpdate.nodeName x).value)).1.nodes
      = st.nodes.set (parseInt nn) { node with name := some x } := by
  rw [dataFrame_dispatch st nn dd ts _ hn hd hnb hdb hts (FieldUpdate.value_nonNumeric _)]
  simp only [dispatch_nodeName]
  rw [nodeNameMessage_known _ _ _ node (by rw [logData_nodes]; exact hnode), logData_nodes]
  simp [substringFrom]

/-- A field update frame whose target is unknown: after the logging, the
only effect is the shown `TypeError`. -/
theorem dataFrame_unknownTarget (st : State) (nn dd ts : Str) (u : FieldUpdate)
    (hn : nn.length = 2) (hd : dd.length = 2) (hnb : '|' ∉ nn) (hdb : '|' ∉ dd)
    (hts : isDecimal ts)
    (htarget : st.nodes.get (parseInt nn) = none
      ∨ (u.deviceScoped = true
          ∧ ∃ node : Node, st.nodes.get (parseInt nn) = some node
              ∧ node.devices.get (parseInt dd) = none)) :
    ProcessRelayerMessage st (dataFrame nn dd ts u.value)
      = ((logData st (parseInt nn) (dataFrame nn dd ts u.value)).1,
         (logData st (parseInt nn) (dataFrame nn dd ts u.value)).2
          ++ [Effect.showException Exn.typeError]) := by
  rw [dataFrame_dispatch st nn dd ts _ hn hd hnb hdb hts u.value_nonNumeric]
  by_cases hu : u.deviceScoped = true
  · simp only [dispatch_deviceUpdate _ _ _ u _ hu]
    rw [deviceFieldMessage_unknown]
    rw [logData_nodes]
    rcases htarget with h | ⟨_, h⟩
    · exact Or.inl h
    · exact Or.inr h
  · cases u with
    | nodeName x =>
      have h : st.nodes.get (parseInt nn) = none := by
        rcases htarget with h | ⟨h, _⟩
        · exact h
        · exact absurd h hu
      simp only [dispatch_nodeName]
      rw [nodeNameMessage_unknown _ _ _ (by rw [logData_nodes]; exact h)]
    | deviceName x => exact absurd rfl hu
    | rate x => exact absurd rfl hu
    | ipEnabled => exact absurd rfl hu
    | ipDisabled => exact absurd rfl hu
    | ppEnabled => exact absurd rfl hu
    | ppDisabled => exact absurd rfl hu

theorem reported_of_showException (effs : List Effect) (ex : Exn) :
    ex ∈ reported (effs ++ [Effect.showException ex]) := by
  simp [reported_append, reported]

theorem nodes_ite (c : Prop) [Decidable c] (a b : State × List Effect) (nodes : JSArray Node)
    (ha : a.1.nodes = nodes) (hb : b.1.nodes = nodes) :
    (if c then a else b).1.nodes = nodes := by
  split <;> assumption

/-- A value that passes none of the tests leading to a write leaves `Nodes`
as it is. -/
theorem dispatch_not_mutating (st : State) (n d : Num) (value : Str) (fields : List Str)
    (h : mutating value = false) :
    (dispatchMessage st n d value fields).1.nodes = st.nodes := by
  simp only [mutating, Bool.or_eq_false_iff, decide_eq_false_iff_not] at h
  obtain ⟨⟨⟨⟨⟨⟨⟨⟨⟨⟨h1, h2⟩, h3⟩, h4⟩, h5⟩, h6⟩, h7⟩, h8⟩, h9⟩, h10⟩, h11⟩ := h
  simp only [dispatchMessage, h1, h2, h3, h4, h5, h6, h7, h8, h9, h10, h11, if_false,
    Bool.false_eq_true]
  repeat' apply nodes_ite
  all_goals first
    | rfl
    | exact LogToMonitor_nodes _ _ _

theorem startsWith_append (value p : Str) (h : startsWith value p = true) :
    ∃ x : Str, value = p ++ x := by
  obtain ⟨x, hx⟩ := List.isPrefixOf_iff_prefix.mp h
  exact ⟨x, hx.symm⟩

theorem error_value (x : Str) :
    mutating ("ERROR=".toList ++ x) = false ∧ isNumericValue ("ERROR=".toList ++ x) = false := by
  simp [mutating, startsWith, List.isPrefixOf, isNumericValue]

theorem pong_value (x : Str) :
    mutating ("PONG".toList ++ x) = false ∧ isNumericValue ("PONG".toList ++ x) = false := by
  simp [mutating, startsWith, List.isPrefixOf, isNumericValue]

theorem unrecognised_value (value : Str) (h : unrecognised value = true) :
    mutating value = false := by
  simp only [unrecognised, Bool.not_eq_true', Bool.or_eq_false_iff] at h
  exact h.1.1.1.1

/-- No data frame sends a command. -/
theorem dataFrame_sends (st : State) (nn dd ts value : Str)
    (hn : nn.length = 2) (hd : dd.length = 2) (hnb : '|' ∉ nn) (hdb : '|' ∉ dd)
    (hts : isDecimal ts) :
    sends (ProcessRelayerMessage st (dataFrame nn dd ts value)).2 = [] := by
  cases hv : isNumericValue value with
  | true =>
    rw [dataFrame_numeric st nn dd ts value hn hd hnb hdb hts hv, sends_append,
      sends_of_report _ (logData_report _ _ _)]
    rfl
  | false =>
    rw [dataFrame_dispatch st nn dd ts value hn hd hnb hdb hts hv, sends_append,
      sends_of_report _ (logData_report _ _ _),
      sends_of_report _ (dispatchMessage_report _ _ _ _ _)]
    rfl

/-- A data frame whose value leads to no writing branch leaves `Nodes` as it
is. -/
theorem dataFrame_readOnly (st : State) (nn dd ts value : Str)
    (hn : nn.length = 2) (hd : dd.length = 2) (hnb : '|' ∉ nn) (hdb : '|' ∉ dd)
    (hts : isDecimal ts) (h : isNumericValue value = true ∨ mutating value = false) :
    (ProcessRelayerMessage st (dataFrame nn dd ts value)).1.nodes = st.nodes := by
  cases hv : isNumericValue value with
  | true =>
    rw [dataFrame_numeric st nn dd ts value hn hd hnb hdb hts hv]
    exact logData_nodes _ _ _
  | false =>
    have hm : mutating value = false := by
      rcases h with h | h
      · rw [hv] at h
        exact absurd h (by simp)
      · exact h
    rw [dataFrame_dispatch st nn dd ts value hn hd hnb hdb hts hv]
    simp only
    rw [dispatch_not_mutating _ _ _ _ _ hm]
    exact logData_nodes _ _ _

/-! ## Facts about the number of records -/

theorem AddNode_count (st : State) (i : Nat) :
    (Diagnostics.AddNode st i).1.nodes.count = st.nodes.count := by
  unfold Diagnostics.AddNode
  cases h : st.nodes.get (Num.int i) with
  | none => rfl
  | some node => exact JSArray.set_count _ _ node _ h

theorem buildLoop_count (l : List Nat) (st : State) (effs : List Effect) (n : Nat) :
    (Diagnostics.buildLoop l (st, effs, n)).1.nodes.count = st.nodes.count := by
  induction l generalizing st effs n with
  | nil => rfl
  | cons i rest ih =>
    unfold Diagnostics.buildLoop
    split
    · exact ih st effs n
    · rw [ih]
      have h := AddNode_count st i
      split <;> exact h

theorem BuildSystem_count (st : State) :
    (Diagnostics.BuildSystem st).1.nodes.count = st.nodes.count := by
  simp only [Diagnostics.BuildSystem]
  exact buildLoop_count _ _ _ _

theorem nodeInfoMessage_count (st : State) (n : Num) (fields : List Str) (node : Node)
    (h : st.nodes.get n = some node) :
    (nodeInfoMessage st n fields).1.nodes.count = st.nodes.count := by
  simp only [nodeInfoMessage, LogToMonitor_nodes, BuildSystem_count]
  exact JSArray.set_count _ _ node _ h

/-! ## Facts about `SerialPort` -/

namespace SerialPort

theorem CloseStreams_reader (s : SerialPort) (f : CloseFaults) :
    (CloseStreams s f).1.serialReader = none := by
  obtain ⟨wp, rd, wr, po, df, trs, wsc, g⟩ := s
  rcases rd with _ | rd <;> rcases wr with _ | wr <;> rcases wsc with _ | _ | _ <;> rfl

theorem CloseStreams_other (s : SerialPort) (f : CloseFaults) :
    (CloseStreams s f).1.webPort = s.webPort ∧ (CloseStreams s f).1.portOpened = s.portOpened
      ∧ (CloseStreams s f).1.WSC = s.WSC ∧ (CloseStreams s f).1.TRS = s.TRS
      ∧ (CloseStreams s f).1.generation = s.generation
      ∧ (CloseStreams s f).1.disconnectFunction = s.disconnectFunction := by
  obtain ⟨wp, rd, wr, po, df, trs, wsc, g⟩ := s
  rcases rd with _ | rd <;> rcases wr with _ | wr <;> rcases wsc with _ | _ | _ <;>
    exact ⟨rfl, rfl, rfl, rfl, rfl, rfl⟩

theorem CloseStreams_writer (s : SerialPort) (f : CloseFaults) :
    (CloseStreams s f).1.serialWriter
      = if s.WSC = some Settled.rejected then s.serialWriter else none := by
  obtain ⟨wp, rd, wr, po, df, trs, wsc, g⟩ := s
  rcases rd with _ | rd <;> rcases wr with _ | wr <;> rcases wsc with _ | _ | _ <;>
    simp [CloseStreams]

/-- The state after `Close`, field by field. -/
theorem Close_state (s : SerialPort) (f : CloseFaults) :
    (Close s f).1
      = { s with
          serialReader := none
          serialWriter := if s.WSC = some Settled.rejected then s.serialWriter else none
          webPort := none
          portOpened := if s.webPort = none then s.portOpened else false } := by
  obtain ⟨wp, rd, wr, po, df, trs, wsc, g⟩ := s
  rcases wp with _ | wp <;> rcases rd with _ | rd <;> rcases wr with _ | wr <;>
    rcases wsc with _ | _ | _ <;> simp [Close, CloseStreams]

/-- The alerts of `Close`: one exactly when a writer is held and the write
pipe is rejected. -/
theorem Close_alerts (s : SerialPort) (f : CloseFaults) :
    alerts (Close s f).2
      = if s.serialWriter ≠ none ∧ s.WSC = some Settled.rejected
        then ["CloseStreams(): ".toList] else [] := by
  obtain ⟨wp, rd, wr, po, df, trs, wsc, g⟩ := s
  rcases wp with _ | wp <;> rcases rd with _ | rd <;> rcases wr with _ | wr <;>
    rcases wsc with _ | _ | _ <;> simp [Close, CloseStreams, alerts]

theorem processed_append (a b : List PortEffect) :
    processed (a ++ b) = processed a ++ processed b := by
  simp [processed, List.filterMap_append]

theorem processed_map (lines : List Str) : processed (lines.map PortEffect.process) = lines := by
  induction lines with
  | nil => rfl
  | cons l ls ih =>
    simp only [processed, List.map_cons, List.filterMap_cons] at ih ⊢
    rw [ih]

theorem CloseStreams_processed (s : SerialPort) (f : CloseFaults) :
    processed (CloseStreams s f).2 = [] := by
  obtain ⟨wp, rd, wr, po, df, trs, wsc, g⟩ := s
  rcases rd with _ | rd <;> rcases wr with _ | wr <;> rcases wsc with _ | _ | _ <;> rfl

theorem CloseStreams_cancel (s : SerialPort) (f : CloseFaults) (h : s.serialReader.isSome = true) :
    PortEffect.readerCancel f.cancelFails ∈ (CloseStreams s f).2 := by
  obtain ⟨wp, rd, wr, po, df, trs, wsc, g⟩ := s
  rcases rd with _ | rd
  · simp at h
  · rcases wr with _ | wr <;> rcases wsc with _ | _ | _ <;> simp [CloseStreams]

theorem readRound_webPort (s : SerialPort) (events : List PortEvent) :
    (readRound s events).1.webPort = s.webPort := by
  induction events generalizing s with
  | nil => rfl
  | cons e rest ih =>
    cases e with
    | chunk text =>
      simp only [readRound]
      rw [ih]
    | close => rfl
    | fault readable faults pipe =>
      have h := (CloseStreams_other s faults).1
      simp only [readRound]
      cases hw : (CloseStreams s faults).1.webPort with
      | none => simp only [hw]; rw [← h, hw]
      | some p =>
        simp only [hw]
        cases readable with
        | false => simp only [Bool.false_eq_true, if_false]; rw [← h, hw]
        | true =>
          simp only [if_true]
          rw [ih]
          simp only [setupStreams]
          rw [← h, hw]

theorem readRound_reader (s : SerialPort) (events : List PortEvent)
    (hport : s.webPort.isSome = true) (hr : s.serialReader.isSome = true)
    (hgo : ∀ e ∈ events, e.goesOn = true) :
    (readRound s events).1.serialReader.isSome = true := by
  induction events generalizing s with
  | nil => exact hr
  | cons e rest ih =>
    have hrest : ∀ e ∈ rest, e.goesOn = true := fun e he => hgo e (List.mem_cons_of_mem _ he)
    have he := hgo e (List.mem_cons_self _ _)
    cases e with
    | chunk text =>
      simp only [readRound]
      exact ih _ (by exact hport) (by exact hr) hrest
    | close => simp [PortEvent.goesOn] at he
    | fault readable faults pipe =>
      simp only [PortEvent.goesOn] at he
      subst he
      have h := (CloseStreams_other s faults).1
      simp only [readRound]
      cases hw : (CloseStreams s faults).1.webPort with
      | none => rw [h] at hw; rw [hw] at hport; simp at hport
      | some p =>
        simp only [if_true]
        apply ih _ _ _ hrest
        · simp only [setupStreams]; rw [hw]; rfl
        · rfl

theorem readRound_append (s : SerialPort) (pre rest : List PortEvent)
    (hport : s.webPort.isSome = true) (hgo : ∀ e ∈ pre, e.goesOn = true) :
    readRound s (pre ++ rest)
      = ((readRound (readRound s pre).1 rest).1,
          (readRound s pre).2.1 ++ (readRound (readRound s pre).1 rest).2.1,
          (readRound (readRound s pre).1 rest).2.2) := by
  induction pre generalizing s with
  | nil => simp [readRound]
  | cons e pre ih =>
    have hpre : ∀ e ∈ pre, e.goesOn = true := fun e he => hgo e (List.mem_cons_of_mem _ he)
    have he := hgo e (List.mem_cons_self _ _)
    cases e with
    | chunk text =>
      simp only [List.cons_append, readRound, List.append_eq]
      rw [ih _ (by exact hport) hpre]
      simp only [List.append_assoc]
    | close => simp [PortEvent.goesOn] at he
    | fault readable faults pipe =>
      simp only [PortEvent.goesOn] at he
      subst he
      have h := (CloseStreams_other s faults).1
      simp only [List.cons_append, readRound, List.append_eq]
      cases hw : (CloseStreams s faults).1.webPort with
      | none => rw [h] at hw; rw [hw] at hport; simp at hport
      | some p =>
        simp only [if_true]
        rw [ih _ (by simp only [setupStreams]; rw [hw]; rfl) hpre]
        simp only [List.append_assoc]

theorem readRound_chunks (s : SerialPort) (t : LineBreakTransformer) (chunks : List Str)
    (ht : s.TRS = some t) :
    readRound s (chunks.map PortEvent.chunk)
      = ({ s with TRS := some (t.feed chunks).1 },
          (t.feed chunks).2.map PortEffect.process, LoopEnd.reading) := by
  induction chunks generalizing s t with
  | nil =>
    obtain ⟨wp, rd, wr, po, df, trs, wsc, g⟩ := s
    simp only at ht
    subst ht
    rfl
  | cons c cs ih =>
    simp only [List.map_cons, readRound, ht, Option.getD_some, LineBreakTransformer.feed]
    rw [ih _ (t.transform c).1 rfl]
    simp only [List.map_append]

theorem readRound_end (s : SerialPort) (events : List PortEvent) :
    ((readRound s events).2.2 = LoopEnd.done → PortEvent.close ∈ events)
      ∧ ((readRound s events).2.2 = LoopEnd.noReadable
          → ∃ f p, PortEvent.fault false f p ∈ events)
      ∧ ((readRound s events).2.2 = LoopEnd.exception → s.webPort = none) := by
  induction events generalizing s with
  | nil => simp [readRound]
  | cons e rest ih =>
    cases e with
    | chunk text =>
      simp only [readRound]
      have h := ih { s with TRS := some ((s.TRS.getD LineBreakTransformer.new).transform text).1 }
      exact ⟨fun hd => List.mem_cons_of_mem _ (h.1 hd),
        fun hn => (h.2.1 hn).imp fun f hf => hf.imp fun p hp => List.mem_cons_of_mem _ hp,
        fun hx => h.2.2 hx⟩
    | close => simp [readRound]
    | fault readable faults pipe =>
      have hwp := (CloseStreams_other s faults).1
      simp only [readRound]
      cases hw : (CloseStreams s faults).1.webPort with
      | none =>
        simp only [reduceCtorEq, false_implies, true_and, forall_const]
        rw [← hwp, hw]
      | some p =>
        cases readable with
        | false =>
          simp only [Bool.false_eq_true, if_false, reduceCtorEq, false_implies, true_and,
            and_true, forall_const]
          exact ⟨faults, pipe, List.mem_cons_self _ _⟩
        | true =>
          simp only [if_true]
          have h := ih (setupStreams (CloseStreams s faults).1 pipe)
          refine ⟨fun hd => List.mem_cons_of_mem _ (h.1 hd),
            fun hn => (h.2.1 hn).imp fun f hf => hf.imp fun p hp => List.mem_cons_of_mem _ hp,
            fun hx => ?_⟩
          have h2 := h.2.2 hx
          simp only [setupStreams] at h2
          rw [hw] at h2
          cases h2

end SerialPort

theorem LineBreakTransformer.feed_new (chunks : List Str) :
    (LineBreakTransformer.new.feed chunks).2 = (splitOnCRLF chunks.flatten).dropLast := by
  have h1 := LineBreakTransformer.feed_lines LineBreakTransformer.new chunks
  have h2 := LineBreakTransformer.feed_container LineBreakTransformer.new chunks
    (by simp [LineBreakTransformer.new, splitOnCRLF])
  rw [h2] at h1
  simp only [LineBreakTransformer.new, List.nil_append] at h1
  simp only [LineBreakTransformer.new]
  rw [← h1]
  simp

/-! ## Facts about the monitors -/

theorem set_getD_self (l : List Str) (m : Nat) : l.set m (l.getD m []) = l := by
  apply List.ext_getElem?
  intro j
  by_cases hj : m = j
  · subst hj
    by_cases hlt : m < l.length
    · simp [List.getElem?_set, hlt, List.getD_eq_getElem?_getD, List.getElem?_eq_getElem hlt]
    · have hle : l.length ≤ m := Nat.le_of_not_lt hlt
      simp [List.getElem?_set, hlt, List.getElem?_eq_none hle]
  · simp [List.getElem?_set, hj]

theorem getD_set_self (l : List Str) (m : Nat) (x : Str) (h : m < l.length) :
    (l.set m x).getD m [] = x := by
  simp [List.getD_eq_getElem?_getD, List.getElem?_set, h]

/-- While the counter stays within `MaxLogMessages`, `n` calls append `n`
lines to the monitor of the Node and add `n` to the counter. -/
theorem logRepeat_below (st : State) (k : Num) (msg : Str) (n : Nat) (node : Node) (m : Nat)
    (hnode : st.nodes.get k = some node) (hm : node.monitor = some m)
    (hlen : m < st.monitors.length) (hcap : st.numLogMessages + n ≤ MaxLogMessages) :
    logRepeat st k msg n
      = { st with
          monitors := st.monitors.set m
            (st.monitors.getD m [] ++ (List.replicate n (msg ++ ['\n'])).flatten)
          numLogMessages := st.numLogMessages + n } := by
  induction n generalizing st with
  | zero =>
    simp only [logRepeat, List.replicate_zero, List.flatten_nil, List.append_nil,
      set_getD_self, Nat.add_zero]
  | succ n ih =>
    have hlt : st.numLogMessages < MaxLogMessages := by omega
    have hstep : (Diagnostics.LogToMonitor st k msg).1
        = { st with
            monitors := st.monitors.set m (st.monitors.getD m [] ++ msg ++ ['\n'])
            numLogMessages := st.numLogMessages + 1 } := by
      simp only [Diagnostics.LogToMonitor, hnode, hm, hlt, if_true]
    simp only [logRepeat]
    rw [hstep, ih _ (by exact hnode) (by simpa using hlen) (by simp only; omega)]
    simp only [getD_set_self _ _ _ hlen, List.set_set, List.replicate_succ, List.flatten_cons,
      List.append_assoc, Nat.add_assoc, Nat.add_comm 1 n]

theorem loggedLines_append (a b : Str) : loggedLines (a ++ b) = loggedLines a + loggedLines b := by
  simp [loggedLines, List.count_append]

theorem loggedLines_replicate (msg : Str) (n : Nat) :
    loggedLines (List.replicate n (msg ++ ['\n'])).flatten = n * (loggedLines msg + 1) := by
  induction n with
  | zero => simp [loggedLines]
  | succ n ih =>
    simp only [List.replicate_succ, List.flatten_cons, loggedLines_append, ih]
    simp only [loggedLines, List.count_cons_self, List.count_nil]
    ring

/-! ## Results -/

/-- C1 (chunking transparency): whatever the chunk boundaries are, feeding the
chunks to `transform` in order and then calling `flush` enqueues exactly the
lines obtained by splitting the concatenated text on CRLF, which is also what
the library `split` returns on the concatenated text. -/
theorem C1_chunking_transparency (chunks : List Str) :
    LineBreakTransformer.run chunks = splitOnCRLF chunks.flatten
      ∧ LineBreakTransformer.run chunks = jsSplit crlf chunks.flatten := by
  have h : LineBreakTransformer.run chunks = splitOnCRLF chunks.flatten := by
    have h1 := LineBreakTransformer.feed_lines LineBreakTransformer.new chunks
    have h2 := LineBreakTransformer.feed_container LineBreakTransformer.new chunks
      (by simp [LineBreakTransformer.new, splitOnCRLF])
    simp only [LineBreakTransformer.run, LineBreakTransformer.flush]
    rw [← h2, h1]
    simp [LineBreakTransformer.new]
  exact ⟨h, by rw [jsSplit_crlf]; exact h⟩

/-- C2 (command encoding): for a nodeID in 0..19 and a deviceID in 0..99,
`Send_UItoRelayer` hands the transport exactly one string, the two ids as two
zero-padded digits each, the opcode cut or space-padded to four characters,
the parameters after one more bar when there are any, and a line feed; the two
padded parts have exactly 2 and 4 characters; the two examples of the
specification come out as written. -/
theorem C2_command_encoding :
    (∀ (st : State) (n d : Nat) (op : Str) (p : Option Str), n < 20 → d < 100 →
        sends (Send_UItoRelayer st (Num.int n) (Num.int d) (some op) p).2
          = [encodeCommand n d op p])
      ∧ (∀ n : Nat, (pad2 n).length = 2)
      ∧ (∀ op : Str, (op4 op).length = 4)
      ∧ sends (Send_UItoRelayer State.init (Num.int 3) (Num.int 2) (some "SRAT".toList)
            (some "3600".toList)).2 = ["03|02|SRAT|3600\n".toList]
      ∧ sends (Send_UItoRelayer State.init (Num.int 3) (Num.int 2) (some "PING".toList)
            none).2 = ["03|02|PING\n".toList] := by
  refine ⟨?_, ?_, ?_, by decide, by decide⟩
  · intro st n d op p hn hd
    rw [Send_UItoRelayer_sends, fullUIMessage_eq n d op p (by omega) hd]
  · intro n
    simp [pad2]
  · intro op
    simp only [op4, List.length_append, List.length_replicate, List.length_take]
    omega

/-- C2 at a concrete command: node 7, device 42, a long opcode and a
parameter. -/
theorem C2_command_encoding_witness :
    (7 < 20 ∧ 42 < 100)
      ∧ sends (Send_UItoRelayer State.init (Num.int 7) (Num.int 42) (some "BLINK".toList)
            (some "1|2".toList)).2 = ["07|42|BLIN|1|2\n".toList] :=
  ⟨by decide,
    (C2_command_encoding.1 State.init 7 42 "BLINK".toList (some "1|2".toList)
      (by decide) (by decide)).trans (by decide)⟩

/-- C3 (value extraction): in a data frame `nn|dd|ts|rest` with two-character
id fields, the value computed from the original line is the whole text after
the third bar, further bars included, and this is the value that
`ProcessRelayerMessage` goes on with. -/
theorem C3_value_extraction (st : State) (nn dd ts rest : Str)
    (hn : nn.length = 2) (hd : dd.length = 2)
    (hnb : '|' ∉ nn) (hdb : '|' ∉ dd) (htb : '|' ∉ ts) :
    frameValue (dataFrame nn dd ts rest) (jsSplit bar (dataFrame nn dd ts rest)) = rest
      ∧ ProcessRelayerMessage st (dataFrame nn dd ts rest)
          = match toBigInt ts with
            | none => (st, [Effect.showException Exn.badBigInt])
            | some timestamp =>
              valueMessage st (dataFrame nn dd ts rest) (jsSplit bar (dataFrame nn dd ts rest))
                (parseInt nn) (parseInt dd) timestamp rest := by
  constructor
  · rw [jsSplit_dataFrame nn dd ts rest hnb hdb htb]
    exact frameValue_dataFrame nn dd ts rest _ hn hd
  · rw [jsSplit_dataFrame nn dd ts rest hnb hdb htb]
    exact ProcessRelayerMessage_dataFrame st nn dd ts rest hn hd hnb hdb htb

/-- C3 at the frame `03|02|123456|DEINFO=Temp|1.0|Y|N|3600`: the value keeps
its four bars. -/
theorem C3_value_extraction_witness :
    frameValue "03|02|123456|DEINFO=Temp|1.0|Y|N|3600".toList
        (jsSplit bar "03|02|123456|DEINFO=Temp|1.0|Y|N|3600".toList)
      = "DEINFO=Temp|1.0|Y|N|3600".toList :=
  (C3_value_extraction State.init "03".toList "02".toList "123456".toList
    "DEINFO=Temp|1.0|Y|N|3600".toList (by decide) (by decide) (by decide) (by decide)
    (by decide)).1

/-- C4 (DeviceSample decoding): for a data frame `nn|dd|ts|value` with
two-character ids and a decimal timestamp, a `deviceData` notification is
triggered exactly when the value starts with `-` or a digit, and then exactly
one, carrying the two parsed ids, the timestamp and the unparsed value. -/
theorem C4_device_sample (st : State) (nn dd ts value : Str)
    (hn : nn.length = 2) (hd : dd.length = 2) (hnb : '|' ∉ nn) (hdb : '|' ∉ dd)
    (hts : isDecimal ts) :
    (startsNumeric value →
        notifications (ProcessRelayerMessage st (dataFrame nn dd ts value)).2
          = [(parseInt nn, parseInt dd, (decimalValue ts : Int), value)])
      ∧ (¬ startsNumeric value →
        notifications (ProcessRelayerMessage st (dataFrame nn dd ts value)).2 = []) := by
  rw [dataFrame_notifications st nn dd ts value hn hd hnb hdb hts]
  constructor
  · intro h
    rw [if_pos ((isNumericValue_iff value).mpr h)]
  · intro h
    rw [if_neg (fun e => h ((isNumericValue_iff value).mp e))]

/-- C4 at the frame `03|02|123456|-12.5`: one notification (3, 2, 123456,
`-12.5`). -/
theorem C4_device_sample_witness :
    notifications (ProcessRelayerMessage State.init "03|02|123456|-12.5".toList).2
      = [(Num.int 3, Num.int 2, 123456, "-12.5".toList)] :=
  ((C4_device_sample State.init "03".toList "02".toList "123456".toList "-12.5".toList
    (by decide) (by decide) (by decide) (by decide) (by decide)).1 (by decide)).trans
    (by decide)

/-- C5 (timestamp exactness): for a data frame whose timestamp is a non-empty
string of decimal digits of any length and whose value is numeric, the
notification carries exactly the integer that the digits denote, so frames
whose timestamps denote different integers carry different timestamps; and
every natural number, written in decimal as the timestamp, is carried back
exactly. -/
theorem C5_timestamp_exact (st : State) (nn dd ts value : Str)
    (hn : nn.length = 2) (hd : dd.length = 2) (hnb : '|' ∉ nn) (hdb : '|' ∉ dd)
    (hts : isDecimal ts) (hv : startsNumeric value) :
    (notifications (ProcessRelayerMessage st (dataFrame nn dd ts value)).2).map
        (fun e => e.2.2.1) = [(decimalValue ts : Int)]
      ∧ (∀ ts2 : Str, isDecimal ts2 → decimalValue ts2 ≠ decimalValue ts →
          (notifications (ProcessRelayerMessage st (dataFrame nn dd ts2 value)).2).map
              (fun e => e.2.2.1)
            ≠ (notifications (ProcessRelayerMessage st (dataFrame nn dd ts value)).2).map
              (fun e => e.2.2.1))
      ∧ (∀ n : Nat,
          (notifications (ProcessRelayerMessage st
              (dataFrame nn dd (Nat.toDigits 10 n) value)).2).map (fun e => e.2.2.1)
            = [(n : Int)]) := by
  have hval := (isNumericValue_iff value).mpr hv
  have h1 : ∀ t : Str, isDecimal t →
      (notifications (ProcessRelayerMessage st (dataFrame nn dd t value)).2).map
        (fun e => e.2.2.1) = [(decimalValue t : Int)] := by
    intro t ht
    rw [dataFrame_notifications st nn dd t value hn hd hnb hdb ht, if_pos hval]
    rfl
  refine ⟨h1 ts hts, ?_, ?_⟩
  · intro ts2 hts2 hne
    rw [h1 ts hts, h1 ts2 hts2]
    intro e
    simp only [List.cons.injEq, Nat.cast_inj, and_true] at e
    exact hne e
  · intro n
    rw [h1 _ (toDigits_decimal n).1, (toDigits_decimal n).2]

/-- C5 at the timestamp 2^53 + 1 = 9007199254740993, which no double holds. -/
theorem C5_timestamp_exact_witness :
    (notifications (ProcessRelayerMessage State.init
        "03|02|9007199254740993|7".toList).2).map (fun e => e.2.2.1)
      = [(2 : Int) ^ 53 + 1] :=
  ((C5_timestamp_exact State.init "03".toList "02".toList "9007199254740993".toList
    "7".toList (by decide) (by decide) (by decide) (by decide) (by decide) (by decide)).1).trans
    (by decide)

/-- C6 (NodeAttached dispatch): for a two-digit id nn in 0..19 the line
`NODE|nn` makes `ProcessRelayerMessage` send exactly two commands, first
`nn|00|GNOI` then `nn|00|GDEI`, each followed by a line feed and with the
digits received, and the array `Nodes` is left as it was. -/
theorem C6_node_attached (st : State) (n : Nat) (hn : n < 20) :
    sends (ProcessRelayerMessage st ("NODE|".toList ++ pad2 n)).2
        = [pad2 n ++ "|00|GNOI\n".toList, pad2 n ++ "|00|GDEI\n".toList]
      ∧ (ProcessRelayerMessage st ("NODE|".toList ++ pad2 n)).1.nodes = st.nodes := by
  have key : ∀ m : Fin 20,
      startsWith ("NODE|".toList ++ pad2 m.val) "NODE|".toList = true
        ∧ parseInt (substring ("NODE|".toList ++ pad2 m.val) 5 7) = Num.int m.val
        ∧ (Num.int m.val).lt MaxNodes = true
        ∧ fullUIMessage (Num.int m.val) (Num.int 0) "GNOI".toList none ++ ['\n']
            = pad2 m.val ++ "|00|GNOI\n".toList
        ∧ fullUIMessage (Num.int m.val) (Num.int 0) "GDEI".toList none ++ ['\n']
            = pad2 m.val ++ "|00|GDEI\n".toList := by decide
  obtain ⟨h1, h2, h3, h4, h5⟩ := key ⟨n, hn⟩
  simp only at h1 h2 h3 h4 h5
  constructor
  · simp only [ProcessRelayerMessage, h1, h2, h3, if_true]
    have hs : ∀ (m : Str) (k : Nat) (l : List Effect),
        sends (Effect.popupBar m k :: l) = sends l := by
      intro m k l
      simp [sends]
    rw [hs, sends_append, Send_UItoRelayer_sends, Send_UItoRelayer_sends, h4, h5]
    rfl
  · simp only [ProcessRelayerMessage, h1, h2, h3, if_true, Send_UItoRelayer_nodes]

/-- C6 at the line `NODE|07`: the two requests go to node 07. -/
theorem C6_node_attached_witness :
    sends (ProcessRelayerMessage State.init "NODE|07".toList).2
      = ["07|00|GNOI\n".toList, "07|00|GDEI\n".toList] :=
  (C6_node_attached State.init 7 (by decide)).1

/-- C7 (DeviceInfo decoding): for a frame `nn|dd|ts|DEINFO=a|b|c|d|e` whose
Node is in the registry, afterwards the Node holds at `dd` the Device record
with the five strings, its other Device records and its own fields are the
ones before, and so is every other slot of `Nodes`. -/
theorem C7_device_info (st : State) (nn dd ts a b c d e : Str) (node : Node)
    (hn : nn.length = 2) (hd : dd.length = 2) (hnb : '|' ∉ nn) (hdb : '|' ∉ dd)
    (hts : isDecimal ts)
    (ha : '|' ∉ a) (hb : '|' ∉ b) (hc : '|' ∉ c) (hd2 : '|' ∉ d) (he : '|' ∉ e)
    (hnode : st.nodes.get (parseInt nn) = some node) :
    ∃ node2 : Node,
      (ProcessRelayerMessage st (dataFrame nn dd ts (deviceInfoValue a b c d e))).1.nodes.get
          (parseInt nn) = some node2
        ∧ node2.devices.get (parseInt dd)
            = some { name := some a, version := some b, ipEnabled := some c,
                     ppEnabled := some d, rate := some e }
        ∧ (∀ j : Num, j ≠ parseInt dd → node2.devices.get j = node.devices.get j)
        ∧ node2.name = node.name ∧ node2.version = node.version
        ∧ node2.macAddress = node.macAddress ∧ node2.numDevices = node.numDevices
        ∧ node2.monitor = node.monitor
        ∧ (∀ k : Num, k ≠ parseInt nn →
            (ProcessRelayerMessage st
              (dataFrame nn dd ts (deviceInfoValue a b c d e))).1.nodes.get k
              = st.nodes.get k) := by
  rw [ProcessRelayerMessage_dataFrame st nn dd ts _ hn hd hnb hdb (not_bar_of_decimal ts hts),
    toBigInt_decimal ts hts]
  simp only
  rw [valueMessage_nonNumeric _ _ _ _ _ _ _ (by simp [isNumericValue, deviceInfoValue])]
  simp only [dispatch_deviceInfoValue]
  have hnode2 : (if st.dataLogging = true then
      Diagnostics.LogToMonitor st (parseInt nn)
        ("──▶ ".toList ++ dataFrame nn dd ts (deviceInfoValue a b c d e))
      else (st, [])).1.nodes.get (parseInt nn) = some node := by
    rw [logged_nodes]
    exact hnode
  rw [deviceInfoMessage_nodes _ _ _ _ node hnode2, logged_nodes,
    jsSplit_deviceInfoValue a b c d e ha hb hc hd2 he]
  refine ⟨_, JSArray.get_set_self _ _ _, ?_, ?_, rfl, rfl, rfl, rfl, rfl, ?_⟩
  · simpa using JSArray.get_set_self node.devices (parseInt dd) _
  · intro j hj
    exact JSArray.get_set_ne _ _ _ _ hj
  · intro k hk
    exact JSArray.get_set_ne _ _ _ _ hk

/-- C7 at the frame `03|02|123456|DEINFO=Temp|1.0|Y|N|3600` with Node 3 known:
device 2 becomes (Temp, 1.0, Y, N, 3600). -/
theorem C7_device_info_witness :
    ∃ node2 : Node,
      (ProcessRelayerMessage stateWithNode3
          "03|02|123456|DEINFO=Temp|1.0|Y|N|3600".toList).1.nodes.get (Num.int 3) = some node2
        ∧ node2.devices.get (Num.int 2)
            = some { name := some "Temp".toList, version := some "1.0".toList,
                     ipEnabled := some "Y".toList, ppEnabled := some "N".toList,
                     rate := some "3600".toList } := by
  obtain ⟨node2, h1, h2, _⟩ :=
    C7_device_info stateWithNode3 "03".toList "02".toList "123456".toList "Temp".toList
      "1.0".toList "Y".toList "N".toList "3600".toList
      { name := some "a".toList, version := some "b".toList, macAddress := some "c".toList,
        numDevices := Num.int 1, devices := JSArray.empty, monitor := some 0 }
      (by decide) (by decide) (by decide) (by decide) (by decide) (by decide) (by decide)
      (by decide) (by decide) (by decide) (by decide)
  exact ⟨node2, h1, h2⟩

/-- C8 as stated fails: with Node 3 known, the frame `04|00|2|NOINFO=d|e|f|1`
for the unknown Node 4 changes the slot of Node 3, whose monitor is replaced
when the system display is rebuilt. -/
theorem C8_other_slot_changes :
    stateWithNode3.nodes.get (Num.int 4) = none
      ∧ (ProcessRelayerMessage stateWithNode3 "04|00|2|NOINFO=d|e|f|1".toList).1.nodes.get
          (Num.int 3) ≠ stateWithNode3.nodes.get (Num.int 3) := by
  decide

/-- C8, amended (NodeInfo creation): for a frame
`nn|dd|ts|NOINFO=name|version|mac|count` whose Node is not in the registry,
afterwards the Node exists with the three transmitted strings, `numDevices`
parsed from count and an empty devices array; every other slot of `Nodes`
keeps its data (name, version, macAddress, numDevices, devices), only monitor
references are renewed. -/
theorem C8_node_info_creation (st : State) (nn dd ts name version mac count : Str)
    (hn : nn.length = 2) (hd : dd.length = 2) (hnb : '|' ∉ nn) (hdb : '|' ∉ dd)
    (hts : isDecimal ts)
    (h1 : '|' ∉ name) (h2 : '|' ∉ version) (h3 : '|' ∉ mac) (h4 : '|' ∉ count)
    (hnode : st.nodes.get (parseInt nn) = none) :
    (∃ node2 : Node,
      (ProcessRelayerMessage st
          (dataFrame nn dd ts (nodeInfoValue name version mac count))).1.nodes.get
          (parseInt nn) = some node2
        ∧ node2.name = some name ∧ node2.version = some version
        ∧ node2.macAddress = some mac ∧ node2.numDevices = parseInt count
        ∧ node2.devices = JSArray.empty)
      ∧ (∀ k : Num, k ≠ parseInt nn →
          slotData ((ProcessRelayerMessage st
              (dataFrame nn dd ts (nodeInfoValue name version mac count))).1.nodes.get k)
            = slotData (st.nodes.get k)) := by
  have hslot : ∀ k : Num,
      slotData ((ProcessRelayerMessage st
          (dataFrame nn dd ts (nodeInfoValue name version mac count))).1.nodes.get k)
        = slotData ((st.nodes.set (parseInt nn)
            { newNode with
              name := some name
              version := some version
              macAddress := some mac
              numDevices := parseInt count }).get k) := by
    intro k
    rw [ProcessRelayerMessage_dataFrame st nn dd ts _ hn hd hnb hdb (not_bar_of_decimal ts hts),
      toBigInt_decimal ts hts]
    simp only
    rw [valueMessage_nonNumeric _ _ _ _ _ _ _ (by simp [isNumericValue, nodeInfoValue])]
    simp only [dispatch_nodeInfoValue]
    rw [nodeInfoMessage_slotData, logged_nodes, hnode,
      jsSplit_nodeInfoValue name version mac count h1 h2 h3 h4]
    simp [substringFrom, parseIntValue]
  constructor
  · have h := hslot (parseInt nn)
    rw [JSArray.get_set_self] at h
    cases hg : (ProcessRelayerMessage st
        (dataFrame nn dd ts (nodeInfoValue name version mac count))).1.nodes.get (parseInt nn) with
    | none =>
      rw [hg] at h
      simp [slotData] at h
    | some node2 =>
      rw [hg] at h
      simp only [slotData, Option.map_some', Option.some.injEq] at h
      refine ⟨node2, rfl, ?_, ?_, ?_, ?_, ?_⟩
      · exact congrArg Node.name h
      · exact congrArg Node.version h
      · exact congrArg Node.macAddress h
      · exact congrArg Node.numDevices h
      · exact congrArg Node.devices h
  · intro k hk
    rw [hslot k, JSArray.get_set_ne _ _ _ _ hk]

/-- C8, amended, at the frame `04|00|2|NOINFO=d|e|f|1` with only Node 3
known. -/
theorem C8_node_info_creation_witness :
    ∃ node2 : Node,
      (ProcessRelayerMessage stateWithNode3 "04|00|2|NOINFO=d|e|f|1".toList).1.nodes.get
          (Num.int 4) = some node2
        ∧ node2.name = some "d".toList ∧ node2.version = some "e".toList
        ∧ node2.macAddress = some "f".toList ∧ node2.numDevices = Num.int 1
        ∧ node2.devices = JSArray.empty :=
  (C8_node_info_creation stateWithNode3 "04".toList "00".toList "2".toList "d".toList
    "e".toList "f".toList "1".toList (by decide) (by decide) (by decide) (by decide)
    (by decide) (by decide) (by decide) (by decide) (by decide) (by decide)).1

/-- C9 (DeviceInfo for an unknown Node): a `DEINFO=` frame whose Node has no
record changes nothing at all: the state, and with it the registry, is the
one before, and there is no effect, so no command and no shown exception. -/
theorem C9_device_info_unknown_node (st : State) (nn dd ts payload : Str)
    (hn : nn.length = 2) (hd : dd.length = 2) (hnb : '|' ∉ nn) (hdb : '|' ∉ dd)
    (hts : isDecimal ts) (hnode : st.nodes.get (parseInt nn) = none) :
    ProcessRelayerMessage st (dataFrame nn dd ts ("DEINFO=".toList ++ payload)) = (st, []) := by
  rw [ProcessRelayerMessage_dataFrame st nn dd ts _ hn hd hnb hdb (not_bar_of_decimal ts hts),
    toBigInt_decimal ts hts]
  simp only
  rw [valueMessage_nonNumeric _ _ _ _ _ _ _ (by simp [isNumericValue])]
  have hlog : (if st.dataLogging = true then
      Diagnostics.LogToMonitor st (parseInt nn)
        ("──▶ ".toList ++ dataFrame nn dd ts ("DEINFO=".toList ++ payload)) else (st, []))
      = (st, []) := by
    split
    · exact LogToMonitor_unknown _ _ _ hnode
    · rfl
  rw [hlog]
  simp [dispatchMessage, startsWith, List.isPrefixOf, deviceInfoMessage, hnode]

/-- C9 at the frame `03|02|123456|DEINFO=Temp|1.0|Y|N|3600` received before
any Node is known. -/
theorem C9_device_info_unknown_node_witness :
    ProcessRelayerMessage State.init "03|02|123456|DEINFO=Temp|1.0|Y|N|3600".toList
      = (State.init, []) :=
  C9_device_info_unknown_node State.init "03".toList "02".toList "123456".toList
    "Temp|1.0|Y|N|3600".toList (by decide) (by decide) (by decide) (by decide) (by decide)
    (by decide)

/-- C10 (registry index invariant), the code at failing inputs: from the
empty registry, the frame `25|00|1|NOINFO=a|b|c|1` stores a Node record under
index 25, beyond `MaxNodes`; the record gets no monitor and logging to it
raises an exception. Likewise, once Node 3 is known, the line
`3|123|1|DEINFO=a|b|c|d|e` stores a Device record under index 123. -/
theorem C10_node_beyond_MaxNodes :
    ((ProcessRelayerMessage State.init "25|00|1|NOINFO=a|b|c|1".toList).1.nodes.get
        (Num.int 25)).isSome = true
      ∧ (ProcessRelayerMessage State.init "25|00|1|NOINFO=a|b|c|1".toList).1.nodes.length = 26
      ∧ reported (ProcessRelayerMessage State.init "25|00|1|NOINFO=a|b|c|1".toList).2
          = [Exn.typeError]
      ∧ ((processLines State.init
            ["03|00|1|NOINFO=a|b|c|1".toList, "3|123|1|DEINFO=a|b|c|d|e".toList]).1.nodes.get
          (Num.int 3)).map (fun node => node.devices.get (Num.int 123))
          = some (some { name := some "a".toList, version := some "b".toList,
                         ipEnabled := some "c".toList, ppEnabled := some "d".toList,
                         rate := some "e".toList }) := by
  decide

/-- C11 (VersionChanged decoding), the code at failing inputs: with Node 3
known, the frame `03|00|5|NVER=2.1` leaves the version of the Node as it was
and has no effect at all, and with Device 2 of Node 3 known, the frame
`03|02|7|DVER=2.0` leaves the version of the Device as it was: the two tests
compare the whole value with the bare prefix. -/
theorem C11_version_not_set :
    ProcessRelayerMessage stateWithNode3 "03|00|5|NVER=2.1".toList = (stateWithNode3, [])
      ∧ (stateWithNode3.nodes.get (Num.int 3)).map (fun node => node.version)
          = some (some "b".toList)
      ∧ ProcessRelayerMessage stateWithDevice "03|02|7|DVER=2.0".toList = (stateWithDevice, [])
      ∧ ((stateWithDevice.nodes.get (Num.int 3)).bind
            (fun node => node.devices.get (Num.int 2))).map (fun dev => dev.version)
          = some (some "1.0".toList) := by
  decide

/-- C12 as stated fails: the line `03|02|abc|5` has four fields and a
timestamp that is no integer, and `ShowException` is invoked for it. -/
theorem C12_bad_timestamp_reported :
    reported (ProcessRelayerMessage State.init "03|02|abc|5".toList).2 = [Exn.badBigInt] := by
  decide

/-- C12, amended (malformed frames): a line that starts with neither sentinel,
has at least four fields and a timestamp field that `BigInt` rejects, leaves
the whole state, and with it the registry, unchanged, triggers no notification
and sends no command; the exception of `BigInt` is caught and handed to
`ShowException` once. -/
theorem C12_malformed_timestamp (st : State) (line : Str)
    (h1 : startsWith line "NODE|".toList = false) (h2 : startsWith line "ERROR:".toList = false)
    (h3 : 4 ≤ (jsSplit bar line).length)
    (h4 : toBigInt ((jsSplit bar line).getD 2 []) = none) :
    (ProcessRelayerMessage st line).1 = st
      ∧ notifications (ProcessRelayerMessage st line).2 = []
      ∧ sends (ProcessRelayerMessage st line).2 = []
      ∧ reported (ProcessRelayerMessage st line).2 = [Exn.badBigInt] := by
  rw [ProcessRelayerMessage_badBigInt st line h1 h2 h3 h4]
  exact ⟨rfl, rfl, rfl, rfl⟩

/-- C12, amended, at the line `03|02|abc|5`. -/
theorem C12_malformed_timestamp_witness :
    (ProcessRelayerMessage State.init "03|02|abc|5".toList).1 = State.init
      ∧ notifications (ProcessRelayerMessage State.init "03|02|abc|5".toList).2 = []
      ∧ sends (ProcessRelayerMessage State.init "03|02|abc|5".toList).2 = []
      ∧ reported (ProcessRelayerMessage State.init "03|02|abc|5".toList).2 = [Exn.badBigInt] :=
  C12_malformed_timestamp State.init "03|02|abc|5".toList (by decide) (by decide) (by decide)
    (by decide)

/-- C13 (out-of-range attach ids), the code at a failing input: the line
`NODE|-1` carries an id below 0, and two commands addressed to node `-1` are
sent. -/
theorem C13_negative_id_accepted :
    sends (ProcessRelayerMessage State.init "NODE|-1".toList).2
      = ["-1|00|GNOI\n".toList, "-1|00|GDEI\n".toList] := by
  decide

/-- C14 (RelayerError decoding): for a line that starts with `ERROR:` the only
effect is the error popup, whose message is the line without its first six
characters, bars included; the state, and with it the registry, is unchanged
and nothing is sent. `ERROR:disk full` gives `disk full`. -/
theorem C14_relayer_error :
    (∀ (st : State) (rest : Str),
        ProcessRelayerMessage st ("ERROR:".toList ++ rest)
          = (st, [Effect.popupMessage "SMAC Relayer/Node Error".toList rest]))
      ∧ (∀ (st : State) (line : Str), startsWith line "ERROR:".toList = true →
          ProcessRelayerMessage st line
            = (st, [Effect.popupMessage "SMAC Relayer/Node Error".toList (line.drop 6)])
          ∧ sends (ProcessRelayerMessage st line).2 = [])
      ∧ ProcessRelayerMessage State.init "ERROR:disk full".toList
          = (State.init, [Effect.popupMessage "SMAC Relayer/Node Error".toList
              "disk full".toList]) := by
  have key : ∀ (st : State) (line : Str), startsWith line "ERROR:".toList = true →
      ProcessRelayerMessage st line
        = (st, [Effect.popupMessage "SMAC Relayer/Node Error".toList (line.drop 6)]) := by
    intro st line h
    have hn : startsWith line "NODE|".toList = false := by
      cases line with
      | nil => simp [startsWith, List.isPrefixOf] at h
      | cons c rest =>
        simp only [startsWith, List.isPrefixOf, Bool.and_eq_true, beq_iff_eq] at h
        simp [startsWith, List.isPrefixOf, ← h.1]
    simp only [ProcessRelayerMessage, hn, h, if_true, if_false, Bool.false_eq_true,
      substringFrom]
  refine ⟨?_, ?_, by decide⟩
  · intro st rest
    rw [key st _ (by simp [startsWith, List.isPrefixOf])]
    simp
  · intro st line h
    rw [key st line h]
    exact ⟨rfl, rfl⟩

/-- C14 at the line `ERROR:a|b|c|d|e`, which has five fields. -/
theorem C14_relayer_error_witness :
    ProcessRelayerMessage State.init "ERROR:a|b|c|d|e".toList
      = (State.init, [Effect.popupMessage "SMAC Relayer/Node Error".toList
          "a|b|c|d|e".toList]) :=
  (C14_relayer_error.2.1 State.init "ERROR:a|b|c|d|e".toList (by decide)).1

/-- C15 (short lines): a line that starts with neither `NODE|` nor `ERROR:`
and has fewer than four fields, that is fewer than three bars, has no effect
at all: the state is the one before and nothing is notified, sent or
reported. -/
theorem C15_short_line (st : State) (line : Str)
    (h1 : startsWith line "NODE|".toList = false) (h2 : startsWith line "ERROR:".toList = false)
    (h3 : line.count '|' < 3) :
    (jsSplit bar line).length < 4 ∧ ProcessRelayerMessage st line = (st, []) := by
  have h4 : (jsSplit bar line).length < 4 := by
    rw [jsSplit_bar_length]
    omega
  exact ⟨h4, ProcessRelayerMessage_short st line h1 h2 h4⟩

/-- C15 at the line `03|02|-12.5`, which has three fields. -/
theorem C15_short_line_witness :
    ProcessRelayerMessage State.init "03|02|-12.5".toList = (State.init, []) :=
  (C15_short_line State.init "03|02|-12.5".toList (by decide) (by decide) (by decide)).2

/-- C16 as stated fails: with Node 3 known, the frame `03|00|2|NOINFO=x|y|z|2`
does not preserve the monitor of Node 3, which is replaced when the system
display is rebuilt. -/
theorem C16_monitor_replaced :
    ((ProcessRelayerMessage stateWithNode3 "03|00|2|NOINFO=x|y|z|2".toList).1.nodes.get
        (Num.int 3)).map (fun node => node.monitor)
      ≠ (stateWithNode3.nodes.get (Num.int 3)).map (fun node => node.monitor) := by
  decide

/-- C16, amended (NodeInfo updates in place): for a frame
`nn|dd|ts|NOINFO=name|version|mac|count` whose Node is in the registry, the
record stays under its key with name, version, macAddress and numDevices
overwritten and its devices array preserved; every other slot keeps its data
and the number of Node records is the one before. Nothing is said of the
monitor references. -/
theorem C16_node_info_in_place (st : State) (nn dd ts name version mac count : Str)
    (node : Node)
    (hn : nn.length = 2) (hd : dd.length = 2) (hnb : '|' ∉ nn) (hdb : '|' ∉ dd)
    (hts : isDecimal ts)
    (h1 : '|' ∉ name) (h2 : '|' ∉ version) (h3 : '|' ∉ mac) (h4 : '|' ∉ count)
    (hnode : st.nodes.get (parseInt nn) = some node) :
    (∃ node2 : Node,
      (ProcessRelayerMessage st
          (dataFrame nn dd ts (nodeInfoValue name version mac count))).1.nodes.get
          (parseInt nn) = some node2
        ∧ node2.name = some name ∧ node2.version = some version
        ∧ node2.macAddress = some mac ∧ node2.numDevices = parseInt count
        ∧ node2.devices = node.devices)
      ∧ (∀ k : Num, k ≠ parseInt nn →
          slotData ((ProcessRelayerMessage st
              (dataFrame nn dd ts (nodeInfoValue name version mac count))).1.nodes.get k)
            = slotData (st.nodes.get k))
      ∧ (ProcessRelayerMessage st
          (dataFrame nn dd ts (nodeInfoValue name version mac count))).1.nodes.count
          = st.nodes.count := by
  have hv : isNumericValue (nodeInfoValue name version mac count) = false := by
    simp [isNumericValue, nodeInfoValue]
  have hnode2 : (logData st (parseInt nn)
      (dataFrame nn dd ts (nodeInfoValue name version mac count))).1.nodes.get (parseInt nn)
      = some node := by
    rw [logData_nodes]
    exact hnode
  have hslot : ∀ k : Num,
      slotData ((ProcessRelayerMessage st
          (dataFrame nn dd ts (nodeInfoValue name version mac count))).1.nodes.get k)
        = slotData ((st.nodes.set (parseInt nn)
            { node with
              name := some name
              version := some version
              macAddress := some mac
              numDevices := parseInt count }).get k) := by
    intro k
    rw [dataFrame_dispatch st nn dd ts _ hn hd hnb hdb hts hv]
    simp only [dispatch_nodeInfoValue]
    rw [nodeInfoMessage_slotData, logData_nodes, hnode,
      jsSplit_nodeInfoValue name version mac count h1 h2 h3 h4]
    simp [substringFrom, parseIntValue]
  refine ⟨?_, ?_, ?_⟩
  · have h := hslot (parseInt nn)
    rw [JSArray.get_set_self] at h
    cases hg : (ProcessRelayerMessage st
        (dataFrame nn dd ts (nodeInfoValue name version mac count))).1.nodes.get (parseInt nn) with
    | none =>
      rw [hg] at h
      simp [slotData] at h
    | some node2 =>
      rw [hg] at h
      simp only [slotData, Option.map_some', Option.some.injEq] at h
      refine ⟨node2, rfl, ?_, ?_, ?_, ?_, ?_⟩
      · exact congrArg Node.name h
      · exact congrArg Node.version h
      · exact congrArg Node.macAddress h
      · exact congrArg Node.numDevices h
      · have h5 := congrArg Node.devices h
        exact h5
  · intro k hk
    rw [hslot k, JSArray.get_set_ne _ _ _ _ hk]
  · rw [dataFrame_dispatch st nn dd ts _ hn hd hnb hdb hts hv]
    simp only [dispatch_nodeInfoValue]
    rw [nodeInfoMessage_count _ _ _ node hnode2, logData_nodes]

/-- C16, amended, at the frame `03|02|9|NOINFO=x|y|z|2` with Node 3 and its
Device 2 known: the record count stays and the devices are kept. -/
theorem C16_node_info_in_place_witness :
    (ProcessRelayerMessage stateWithDevice "03|02|9|NOINFO=x|y|z|2".toList).1.nodes.count
      = stateWithDevice.nodes.count :=
  (C16_node_info_in_place stateWithDevice "03".toList "02".toList "9".toList "x".toList
    "y".toList "z".toList "2".toList
    { name := some "a".toList, version := some "b".toList, macAddress := some "c".toList,
      numDevices := Num.int 1,
      devices := ⟨[none, none, some { name := some "Temp".toList, version := some "1.0".toList,
                                       ipEnabled := some "Y".toList,
                                       ppEnabled := some "N".toList,
                                       rate := some "3600".toList }], []⟩,
      monitor := some 0 }
    (by decide) (by decide) (by decide) (by decide) (by decide) (by decide) (by decide)
    (by decide) (by decide) (by decide)).2.2

/-- C17 (rename and rate updates): for a frame addressed to a Node of the
registry, the value `NONAME=x` changes nothing but the name of that Node,
which becomes x; when the Device addressed exists too, `DENAME=x` changes
nothing but the name of that Device and `RATE=x` nothing but its rate, x
being all that follows the sign `=`. -/
theorem C17_rename_and_rate (st : State) (nn dd ts x : Str) (node : Node)
    (hn : nn.length = 2) (hd : dd.length = 2) (hnb : '|' ∉ nn) (hdb : '|' ∉ dd)
    (hts : isDecimal ts) (hnode : st.nodes.get (parseInt nn) = some node) :
    OnlyNodeNameChanged st.nodes
        (ProcessRelayerMessage st (dataFrame nn dd ts ("NONAME=".toList ++ x))).1.nodes
        (parseInt nn) x
      ∧ (∀ dev : Device, node.devices.get (parseInt dd) = some dev →
          OnlyDeviceChanged st.nodes
              (ProcessRelayerMessage st (dataFrame nn dd ts ("DENAME=".toList ++ x))).1.nodes
              (parseInt nn) (parseInt dd) { dev with name := some x }
            ∧ OnlyDeviceChanged st.nodes
              (ProcessRelayerMessage st (dataFrame nn dd ts ("RATE=".toList ++ x))).1.nodes
              (parseInt nn) (parseInt dd) { dev with rate := some x }) := by
  constructor
  · have h := dataFrame_nodeName st nn dd ts x node hn hd hnb hdb hts hnode
    simp only [FieldUpdate.value] at h
    rw [h]
    exact ⟨node, hnode, JSArray.get_set_self _ _ _,
      fun k hk => JSArray.get_set_ne _ _ _ _ hk⟩
  · intro dev hdev
    constructor
    · have h := dataFrame_deviceUpdate st nn dd ts (FieldUpdate.deviceName x) node dev
        hn hd hnb hdb hts rfl hnode hdev
      simp only [FieldUpdate.value, FieldUpdate.onDevice] at h
      rw [h]
      exact onlyDeviceChanged_set _ _ _ _ _ hnode
    · have h := dataFrame_deviceUpdate st nn dd ts (FieldUpdate.rate x) node dev
        hn hd hnb hdb hts rfl hnode hdev
      simp only [FieldUpdate.value, FieldUpdate.onDevice] at h
      rw [h]
      exact onlyDeviceChanged_set _ _ _ _ _ hnode

/-- C17 at the frame `03|02|9|NONAME=Pump|A` with Node 3 known: the name
becomes `Pump|A`, bar included. -/
theorem C17_rename_and_rate_witness :
    OnlyNodeNameChanged stateWithNode3.nodes
      (ProcessRelayerMessage stateWithNode3 "03|02|9|NONAME=Pump|A".toList).1.nodes
      (Num.int 3) "Pump|A".toList :=
  (C17_rename_and_rate stateWithNode3 "03".toList "02".toList "9".toList "Pump|A".toList
    { name := some "a".toList, version := some "b".toList, macAddress := some "c".toList,
      numDevices := Num.int 1, devices := JSArray.empty, monitor := some 0 }
    (by decide) (by decide) (by decide) (by decide) (by decide) (by decide)).1

/-- C18 (processing toggles): for a frame addressed to an existing Device whose
value is exactly `IP Enabled`, `IP Disabled`, `PP Enabled` or `PP Disabled`,
nothing changes in the registry but that Device, whose ipEnabled becomes `Y`
or `N`, respectively whose ppEnabled becomes `Y` or `N`; an IP frame leaves
ppEnabled and a PP frame leaves ipEnabled as it was; and processing the frame
a second time gives the registry reached after the first time. -/
theorem C18_toggles (st : State) (nn dd ts : Str) (u : FieldUpdate) (node : Node)
    (dev : Device)
    (hn : nn.length = 2) (hd : dd.length = 2) (hnb : '|' ∉ nn) (hdb : '|' ∉ dd)
    (hts : isDecimal ts) (hu : u.isToggle = true)
    (hnode : st.nodes.get (parseInt nn) = some node)
    (hdev : node.devices.get (parseInt dd) = some dev) :
    OnlyDeviceChanged st.nodes
        (ProcessRelayerMessage st (dataFrame nn dd ts u.value)).1.nodes
        (parseInt nn) (parseInt dd) (u.onDevice dev)
      ∧ (u.value = "IP Enabled".toList → u.onDevice dev = { dev with ipEnabled := some ['Y'] })
      ∧ (u.value = "IP Disabled".toList → u.onDevice dev = { dev with ipEnabled := some ['N'] })
      ∧ (u.value = "PP Enabled".toList → u.onDevice dev = { dev with ppEnabled := some ['Y'] })
      ∧ (u.value = "PP Disabled".toList → u.onDevice dev = { dev with ppEnabled := some ['N'] })
      ∧ (ProcessRelayerMessage (ProcessRelayerMessage st (dataFrame nn dd ts u.value)).1
            (dataFrame nn dd ts u.value)).1.nodes
          = (ProcessRelayerMessage st (dataFrame nn dd ts u.value)).1.nodes := by
  have hsc : u.deviceScoped = true := by
    cases u <;> first | rfl | exact absurd hu (by simp [FieldUpdate.isToggle])
  have hidem : u.onDevice (u.onDevice dev) = u.onDevice dev := by
    cases u <;> rfl
  have h1 := dataFrame_deviceUpdate st nn dd ts u node dev hn hd hnb hdb hts hsc hnode hdev
  refine ⟨?_, ?_, ?_, ?_, ?_, ?_⟩
  · rw [h1]
    exact onlyDeviceChanged_set _ _ _ _ _ hnode
  · intro hval
    cases u <;> first | rfl | exact absurd hval (by simp [FieldUpdate.value])
  · intro hval
    cases u <;> first | rfl | exact absurd hval (by simp [FieldUpdate.value])
  · intro hval
    cases u <;> first | rfl | exact absurd hval (by simp [FieldUpdate.value])
  · intro hval
    cases u <;> first | rfl | exact absurd hval (by simp [FieldUpdate.value])
  · have hnode1 : (ProcessRelayerMessage st (dataFrame nn dd ts u.value)).1.nodes.get
        (parseInt nn)
        = some { node with devices := node.devices.set (parseInt dd) (u.onDevice dev) } := by
      rw [h1]
      exact JSArray.get_set_self _ _ _
    have hdev1 : (node.devices.set (parseInt dd) (u.onDevice dev)).get (parseInt dd)
        = some (u.onDevice dev) := JSArray.get_set_self _ _ _
    rw [dataFrame_deviceUpdate _ nn dd ts u _ (u.onDevice dev) hn hd hnb hdb hts hsc hnode1 hdev1,
      hidem]
    simp only
    rw [JSArray.set_same _ _ _ hdev1]
    exact JSArray.set_same _ _ _ hnode1

/-- C18 at the frame `03|02|9|IP Disabled` with Device 2 of Node 3 known and
its ipEnabled `Y`: the second processing changes nothing any more. -/
theorem C18_toggles_witness :
    (ProcessRelayerMessage (ProcessRelayerMessage stateWithDevice
          "03|02|9|IP Disabled".toList).1 "03|02|9|IP Disabled".toList).1.nodes
      = (ProcessRelayerMessage stateWithDevice "03|02|9|IP Disabled".toList).1.nodes :=
  (C18_toggles stateWithDevice "03".toList "02".toList "9".toList FieldUpdate.ipDisabled
    { name := some "a".toList, version := some "b".toList, macAddress := some "c".toList,
      numDevices := Num.int 1,
      devices := ⟨[none, none, some { name := some "Temp".toList, version := some "1.0".toList,
                                       ipEnabled := some "Y".toList,
                                       ppEnabled := some "N".toList,
                                       rate := some "3600".toList }], []⟩,
      monitor := some 0 }
    { name := some "Temp".toList, version := some "1.0".toList, ipEnabled := some "Y".toList,
      ppEnabled := some "N".toList, rate := some "3600".toList }
    (by decide) (by decide) (by decide) (by decide) (by decide) (by decide) (by decide)
    (by decide)).2.2.2.2.2

/-- C19 (field update to an unknown target): for a `NONAME=`, `DENAME=`,
`RATE=` or toggle frame whose Node is not in the registry, or, for the
Device updates, whose Device is not in the devices of its Node, the array
`Nodes` is left exactly as it was, a `TypeError` is handed to
`ShowException` and `ProcessRelayerMessage` returns normally; nothing is sent
or notified, and without data logging the shown exception is the only
effect. -/
theorem C19_unknown_target (st : State) (nn dd ts : Str) (u : FieldUpdate)
    (hn : nn.length = 2) (hd : dd.length = 2) (hnb : '|' ∉ nn) (hdb : '|' ∉ dd)
    (hts : isDecimal ts)
    (htarget : st.nodes.get (parseInt nn) = none
      ∨ (u.deviceScoped = true
          ∧ ∃ node : Node, st.nodes.get (parseInt nn) = some node
              ∧ node.devices.get (parseInt dd) = none)) :
    (ProcessRelayerMessage st (dataFrame nn dd ts u.value)).1.nodes = st.nodes
      ∧ Exn.typeError ∈ reported (ProcessRelayerMessage st (dataFrame nn dd ts u.value)).2
      ∧ sends (ProcessRelayerMessage st (dataFrame nn dd ts u.value)).2 = []
      ∧ notifications (ProcessRelayerMessage st (dataFrame nn dd ts u.value)).2 = []
      ∧ (st.dataLogging = false →
          ProcessRelayerMessage st (dataFrame nn dd ts u.value)
            = (st, [Effect.showException Exn.typeError])) := by
  have hs := dataFrame_sends st nn dd ts u.value hn hd hnb hdb hts
  rw [dataFrame_unknownTarget st nn dd ts u hn hd hnb hdb hts htarget] at hs ⊢
  refine ⟨logData_nodes _ _ _, reported_of_showException _ _, hs, ?_, ?_⟩
  · rw [notifications_append, notifications_of_report _ (logData_report _ _ _)]
    rfl
  · intro hl
    rw [logData_off _ _ _ hl]
    rfl

/-- C19 at the frame `03|02|9|RATE=7200` with Node 3 known and no Device 2. -/
theorem C19_unknown_target_witness :
    ProcessRelayerMessage stateWithNode3 "03|02|9|RATE=7200".toList
      = (stateWithNode3, [Effect.showException Exn.typeError]) :=
  (C19_unknown_target stateWithNode3 "03".toList "02".toList "9".toList
    (FieldUpdate.rate "7200".toList) (by decide) (by decide) (by decide) (by decide)
    (by decide)
    (Or.inr ⟨rfl,
      { name := some "a".toList, version := some "b".toList, macAddress := some "c".toList,
        numDevices := Num.int 1, devices := JSArray.empty, monitor := some 0 },
      by decide, by decide⟩)).2.2.2.2 (by decide)

/-- C20 (read-only events): for a data frame whose value is a numeric sample,
starts with `ERROR=`, starts with `PONG` or passes none of the tests of the
chain, the array `Nodes`, with every Node and Device record in it, is the
same before and after, and no command is sent. -/
theorem C20_read_only (st : State) (nn dd ts value : Str)
    (hn : nn.length = 2) (hd : dd.length = 2) (hnb : '|' ∉ nn) (hdb : '|' ∉ dd)
    (hts : isDecimal ts)
    (hv : startsNumeric value ∨ startsWith value "ERROR=".toList = true
      ∨ startsWith value "PONG".toList = true ∨ unrecognised value = true) :
    (ProcessRelayerMessage st (dataFrame nn dd ts value)).1.nodes = st.nodes
      ∧ sends (ProcessRelayerMessage st (dataFrame nn dd ts value)).2 = [] := by
  refine ⟨?_, dataFrame_sends st nn dd ts value hn hd hnb hdb hts⟩
  apply dataFrame_readOnly st nn dd ts value hn hd hnb hdb hts
  rcases hv with h | h | h | h
  · exact Or.inl ((isNumericValue_iff value).mpr h)
  · obtain ⟨x, rfl⟩ := startsWith_append _ _ h
    exact Or.inr (error_value x).1
  · obtain ⟨x, rfl⟩ := startsWith_append _ _ h
    exact Or.inr (pong_value x).1
  · exact Or.inr (unrecognised_value value h)

/-- C20 at the frame `03|02|9|ERROR=sensor|fault` with Device 2 of Node 3
known. -/
theorem C20_read_only_witness :
    (ProcessRelayerMessage stateWithDevice "03|02|9|ERROR=sensor|fault".toList).1.nodes
        = stateWithDevice.nodes
      ∧ sends (ProcessRelayerMessage stateWithDevice "03|02|9|ERROR=sensor|fault".toList).2
        = [] :=
  C20_read_only stateWithDevice "03".toList "02".toList "9".toList
    "ERROR=sensor|fault".toList (by decide) (by decide) (by decide) (by decide) (by decide)
    (Or.inr (Or.inl (by decide)))


/-- C21 (total device count): `Nodes.forEach` visits array indices only, and
the data-frame path stores a Node under any key that `parseInt` yields. After
the frames `-1|00|1|NOINFO=a|b|c|5` and `03|00|1|NOINFO=a|b|c|1` the registry
holds a Node with five Devices under the key `-1` and Node 3 with one Device;
the frame `03|02|2|DEINFO=Temp|1.0|Y|N|3600` for the known Node 3 then writes
the total 1 to the status bar, while the sum of `numDevices` over the Nodes
of the registry is 6. -/
theorem C21_total_misses_stray_node :
    (stateWithStrayNode.nodes.get (Num.int (-1))).map Node.numDevices = some (Num.int 5)
      ∧ (stateWithStrayNode.nodes.get (Num.int 3)).map Node.numDevices = some (Num.int 1)
      ∧ statusTotals (ProcessRelayerMessage stateWithStrayNode
          "03|02|2|DEINFO=Temp|1.0|Y|N|3600".toList).2 = [Num.int 1]
      ∧ deviceCountSum (ProcessRelayerMessage stateWithStrayNode
          "03|02|2|DEINFO=Temp|1.0|Y|N|3600".toList).1.nodes = Num.int 6 := by
  decide

/-- C22, the claim as written fails: the frame that `Send_UItoRelayer` hands
to the transport for `PING` to node 3, device 2 is `03|02|PING` and a line
feed; it does not end in CRLF. -/
theorem C22_frame_not_crlf :
    sends (Send_UItoRelayer State.init (Num.int 3) (Num.int 2) (some "PING".toList) none).2
        = ["03|02|PING\n".toList]
      ∧ crlf.isSuffixOf "03|02|PING\n".toList = false := by
  decide

/-- C22 (wire terminator), amended: for every command, `Send_UItoRelayer`
hands the transport exactly one frame, which is the message followed by a
single line feed: the last character is the line feed and what stands before
it is the message, with no carriage return added. -/
theorem C22_line_feed_terminator (st : State) (n d : Num) (op : Str) (p : Option Str) :
    sends (Send_UItoRelayer st n d (some op) p).2 = [fullUIMessage n d op p ++ ['\n']]
      ∧ (fullUIMessage n d op p ++ ['\n']).getLast? = some '\n'
      ∧ (fullUIMessage n d op p ++ ['\n']).dropLast = fullUIMessage n d op p := by
  refine ⟨Send_UItoRelayer_sends st n d op p, ?_, ?_⟩
  · simp
  · simp

/-- C23 (Close and a rejected write pipe): `Close` always returns, with the
reader and the port handle released; but when a writer is held and the write
pipe `WSC` is rejected, `await this.WSC` throws past the assignment
`this.serialWriter = undefined`, so the writer is still held after `Close`,
and the outer `catch` of `CloseStreams` raises an alert. Whether the three
guarded calls fail makes no difference. -/
theorem C23_writer_kept_after_close (s : SerialPort) (f : CloseFaults) (w : Nat)
    (hw : s.serialWriter = some w) (hp : s.WSC = some Settled.rejected) :
    (SerialPort.Close s f).1.serialWriter = some w
      ∧ (SerialPort.Close s f).1.serialReader = none
      ∧ (SerialPort.Close s f).1.webPort = none
      ∧ SerialPort.alerts (SerialPort.Close s f).2 = ["CloseStreams(): ".toList] := by
  rw [SerialPort.Close_alerts, SerialPort.Close_state]
  simp [hw, hp]

/-- C23 at the opened port whose write pipe ended in an error, every guarded
call failing as well. -/
theorem C23_writer_kept_after_close_witness :
    (openedPort.serialWriter = some 0 ∧ openedPort.WSC = some Settled.rejected)
      ∧ (SerialPort.Close openedPort ⟨true, true, true⟩).1.serialWriter = some 0
      ∧ (SerialPort.Close openedPort ⟨true, true, true⟩).1.serialReader = none :=
  ⟨⟨rfl, rfl⟩,
    (C23_writer_kept_after_close openedPort ⟨true, true, true⟩ 0 rfl rfl).1,
    (C23_writer_kept_after_close openedPort ⟨true, true, true⟩ 0 rfl rfl).2.1⟩

/-- C24, the claim as written fails: a transport whose port was chosen but
never opened has its port handle cleared by `Close`. -/
theorem C24_close_clears_chosen_port :
    chosenPort.portOpened = false
      ∧ chosenPort.serialReader = none ∧ chosenPort.serialWriter = none
      ∧ chosenPort.webPort = some 1
      ∧ (SerialPort.Close chosenPort noFaults).1.webPort = none
      ∧ (SerialPort.Close chosenPort noFaults).1 ≠ chosenPort := by
  decide

/-- C24 (Close is idempotent), amended: from every state, a second `Close`
leaves the state of the first; on a transport that is not open and holds no
reader and no writer, `Close` raises no alert and changes nothing but the port
handle, which it clears; when there is no port handle either, nothing changes
and nothing is called. -/
theorem C24_close_idempotent (s : SerialPort) (f1 f2 : CloseFaults) :
    (SerialPort.Close (SerialPort.Close s f1).1 f2).1 = (SerialPort.Close s f1).1
      ∧ (s.portOpened = false → s.serialReader = none → s.serialWriter = none →
          (SerialPort.Close s f1).1 = { s with webPort := none }
            ∧ SerialPort.alerts (SerialPort.Close s f1).2 = []
            ∧ (s.webPort = none → SerialPort.Close s f1 = (s, []))) := by
  constructor
  · rw [SerialPort.Close_state (SerialPort.Close s f1).1 f2, SerialPort.Close_state s f1]
    obtain ⟨wp, rd, wr, po, df, trs, wsc, g⟩ := s
    rcases wsc with _ | _ | _ <;> simp
  · intro ho hr hw
    refine ⟨?_, ?_, ?_⟩
    · rw [SerialPort.Close_state]
      obtain ⟨wp, rd, wr, po, df, trs, wsc, g⟩ := s
      simp only at ho hr hw
      subst ho hr hw
      simp
    · rw [SerialPort.Close_alerts]
      simp [hw]
    · intro hp
      obtain ⟨wp, rd, wr, po, df, trs, wsc, g⟩ := s
      simp only at ho hr hw hp
      subst ho hr hw hp
      rfl

/-- C24 at the opened port (closing twice) and at the transport whose port was
chosen but never opened. -/
theorem C24_close_idempotent_witness :
    (SerialPort.Close (SerialPort.Close openedPort noFaults).1 noFaults).1
        = (SerialPort.Close openedPort noFaults).1
      ∧ (chosenPort.portOpened = false ∧ chosenPort.serialReader = none
          ∧ chosenPort.serialWriter = none)
      ∧ (SerialPort.Close chosenPort noFaults).1 = { chosenPort with webPort := none }
      ∧ SerialPort.alerts (SerialPort.Close chosenPort noFaults).2 = [] :=
  ⟨(C24_close_idempotent openedPort noFaults noFaults).1, ⟨rfl, rfl, rfl⟩,
    ((C24_close_idempotent chosenPort noFaults noFaults).2 rfl rfl rfl).1,
    ((C24_close_idempotent chosenPort noFaults noFaults).2 rfl rfl rfl).2.1⟩

/-- C25 (self-healing read loop): on a transport with a port, let the reader
deliver `before` (chunks and recovered faults), then throw while the port still
has a readable stream, then deliver `chunks`. The loop is still reading after
the fault and after the chunks; at the fault the reader is cancelled and a
fresh line splitter with an empty buffer, a reader and a writer are in place;
the callback gets, after the lines of `before`, exactly the complete lines of
the text that arrived after the fault. For every sequence of events, the loop
ends as done only after the reader reported the end of the stream, ends for
want of a readable stream only after a fault that left none, and never ends on
an exception. -/
theorem C25_read_fault_recovery (s : SerialPort) (pipe0 pipe : Settled)
    (before events : List PortEvent) (f : CloseFaults) (chunks : List Str)
    (hport : s.webPort.isSome = true) (hgo : ∀ e ∈ before, e.goesOn = true) :
    (SerialPort.ReadLoop s true pipe0 (before ++ [PortEvent.fault true f pipe])).2.2
        = LoopEnd.reading
      ∧ PortEffect.readerCancel f.cancelFails
          ∈ (SerialPort.ReadLoop s true pipe0 (before ++ [PortEvent.fault true f pipe])).2.1
      ∧ (SerialPort.ReadLoop s true pipe0 (before ++ [PortEvent.fault true f pipe])).1.TRS
          = some LineBreakTransformer.new
      ∧ (SerialPort.ReadLoop s true pipe0
            (before ++ [PortEvent.fault true f pipe])).1.serialReader.isSome = true
      ∧ (SerialPort.ReadLoop s true pipe0
            (before ++ [PortEvent.fault true f pipe])).1.serialWriter.isSome = true
      ∧ (SerialPort.ReadLoop s true pipe0
            (before ++ PortEvent.fault true f pipe :: chunks.map PortEvent.chunk)).2.2
          = LoopEnd.reading
      ∧ SerialPort.processed (SerialPort.ReadLoop s true pipe0
            (before ++ PortEvent.fault true f pipe :: chunks.map PortEvent.chunk)).2.1
          = SerialPort.processed (SerialPort.ReadLoop s true pipe0 before).2.1
              ++ (splitOnCRLF chunks.flatten).dropLast
      ∧ ((SerialPort.ReadLoop s true pipe0 events).2.2 = LoopEnd.done
          → PortEvent.close ∈ events)
      ∧ ((SerialPort.ReadLoop s true pipe0 events).2.2 = LoopEnd.noReadable
          → ∃ f2 p2, PortEvent.fault false f2 p2 ∈ events)
      ∧ (SerialPort.ReadLoop s true pipe0 events).2.2 ≠ LoopEnd.exception := by
  obtain ⟨p, hp⟩ := Option.isSome_iff_exists.mp hport
  have hs : (SerialPort.setupStreams s pipe0).webPort.isSome = true := by
    simp only [SerialPort.setupStreams]; exact hport
  have hloop : ∀ es, SerialPort.ReadLoop s true pipe0 es
      = SerialPort.readRound (SerialPort.setupStreams s pipe0) es := by
    intro es
    simp only [SerialPort.ReadLoop, hp, if_true]
  have hmid := SerialPort.readRound_webPort (SerialPort.setupStreams s pipe0) before
  have hrd := SerialPort.readRound_reader (SerialPort.setupStreams s pipe0) before hs rfl hgo
  have hcl := SerialPort.CloseStreams_other
    (SerialPort.readRound (SerialPort.setupStreams s pipe0) before).1 f
  have hwp : (SerialPort.CloseStreams
      (SerialPort.readRound (SerialPort.setupStreams s pipe0) before).1 f).1.webPort = some p := by
    rw [hcl.1, hmid]
    simp only [SerialPort.setupStreams]
    exact hp
  have hfault : ∀ rest, SerialPort.readRound
      (SerialPort.readRound (SerialPort.setupStreams s pipe0) before).1
      (PortEvent.fault true f pipe :: rest)
      = ((SerialPort.readRound (SerialPort.setupStreams (SerialPort.CloseStreams
            (SerialPort.readRound (SerialPort.setupStreams s pipe0) before).1 f).1 pipe) rest).1,
          (SerialPort.CloseStreams
            (SerialPort.readRound (SerialPort.setupStreams s pipe0) before).1 f).2
            ++ (SerialPort.readRound (SerialPort.setupStreams (SerialPort.CloseStreams
              (SerialPort.readRound (SerialPort.setupStreams s pipe0) before).1 f).1 pipe)
              rest).2.1,
          (SerialPort.readRound (SerialPort.setupStreams (SerialPort.CloseStreams
            (SerialPort.readRound (SerialPort.setupStreams s pipe0) before).1 f).1 pipe)
            rest).2.2) := by
    intro rest
    simp only [SerialPort.readRound, hwp, if_true]
  have hend := SerialPort.readRound_end (SerialPort.setupStreams s pipe0) events
  refine ⟨?_, ?_, ?_, ?_, ?_, ?_, ?_, ?_, ?_, ?_⟩
  · rw [hloop, SerialPort.readRound_append _ _ _ hs hgo, hfault]
    rfl
  · rw [hloop, SerialPort.readRound_append _ _ _ hs hgo, hfault]
    exact List.mem_append_right _
      (List.mem_append_left _ (SerialPort.CloseStreams_cancel _ f hrd))
  · rw [hloop, SerialPort.readRound_append _ _ _ hs hgo, hfault]
    rfl
  · rw [hloop, SerialPort.readRound_append _ _ _ hs hgo, hfault]
    rfl
  · rw [hloop, SerialPort.readRound_append _ _ _ hs hgo, hfault]
    rfl
  · rw [hloop, SerialPort.readRound_append _ _ _ hs hgo, hfault,
      SerialPort.readRound_chunks _ LineBreakTransformer.new chunks rfl]
  · rw [hloop, hloop, SerialPort.readRound_append _ _ _ hs hgo, hfault,
      SerialPort.readRound_chunks _ LineBreakTransformer.new chunks rfl]
    simp only [SerialPort.processed_append, SerialPort.CloseStreams_processed,
      SerialPort.processed_map, List.nil_append, LineBreakTransformer.feed_new]
  · rw [hloop]
    exact hend.1
  · rw [hloop]
    exact hend.2.1
  · rw [hloop]
    intro hx
    have h2 := hend.2.2 hx
    simp only [SerialPort.setupStreams] at h2
    rw [hp] at h2
    cases h2

/-- C25 on the opened port: half a line, a read fault, then three chunks; the
half line is lost and the two complete lines after the fault are delivered. -/
theorem C25_read_fault_recovery_witness :
    (openedPort.webPort.isSome = true
        ∧ ∀ e ∈ [PortEvent.chunk "03|0".toList], e.goesOn = true)
      ∧ SerialPort.processed (SerialPort.ReadLoop openedPort true Settled.fulfilled
            ([PortEvent.chunk "03|0".toList] ++ PortEvent.fault true noFaults Settled.fulfilled
              :: ["PONG\r".toList, "\nER".toList, "ROR\r\nNO".toList].map PortEvent.chunk)).2.1
          = ["PONG".toList, "ERROR".toList] :=
  ⟨⟨rfl, by decide⟩,
    ((C25_read_fault_recovery openedPort Settled.fulfilled Settled.fulfilled
      [PortEvent.chunk "03|0".toList] [] noFaults
      ["PONG\r".toList, "\nER".toList, "ROR\r\nNO".toList] rfl (by decide)).2.2.2.2.2.2.1).trans
      (by decide)⟩

/-- C26 (disconnect notification): on the 'disconnect' event of a transport
with a port, the reader and the port handle are released, `IsOpen ()` is
false, and the callback given to the constructor is invoked once, after the
port was closed (never when no callback was given); but when a writer is held
and the write pipe `WSC` is rejected, the writer is still held afterwards. -/
theorem C26_disconnect_keeps_writer (s : SerialPort) (f : CloseFaults) (p w : Nat)
    (hport : s.webPort = some p) (hw : s.serialWriter = some w)
    (hp : s.WSC = some Settled.rejected) :
    (SerialPort.disconnectListener s f).1.serialWriter = some w
      ∧ (SerialPort.disconnectListener s f).1.serialReader = none
      ∧ (SerialPort.disconnectListener s f).1.webPort = none
      ∧ (SerialPort.disconnectListener s f).1.IsOpen = false
      ∧ (SerialPort.disconnectListener s f).2.count PortEffect.disconnectCallback
          = (if s.disconnectFunction then 1 else 0)
      ∧ (s.disconnectFunction = true →
          (SerialPort.disconnectListener s f).2.getLast? = some PortEffect.disconnectCallback
            ∧ PortEffect.portClose f.portCloseFails ∈ (SerialPort.disconnectListener s f).2) := by
  obtain ⟨wp, rd, wr, po, df, trs, wsc, g⟩ := s
  simp only at hport hw hp
  subst hport hw hp
  rcases rd with _ | rd <;> cases df <;>
    simp [SerialPort.disconnectListener, SerialPort.Close, SerialPort.CloseStreams,
      SerialPort.IsOpen]

/-- C26 at the opened port whose write pipe ended in an error. -/
theorem C26_disconnect_keeps_writer_witness :
    (openedPort.webPort = some 1 ∧ openedPort.serialWriter = some 0
        ∧ openedPort.WSC = some Settled.rejected)
      ∧ (SerialPort.disconnectListener openedPort noFaults).1.serialWriter = some 0
      ∧ (SerialPort.disconnectListener openedPort noFaults).2.count
          PortEffect.disconnectCallback = 1 :=
  ⟨⟨rfl, rfl, rfl⟩,
    (C26_disconnect_keeps_writer openedPort noFaults 1 0 rfl rfl rfl).1,
    (C26_disconnect_keeps_writer openedPort noFaults 1 0 rfl rfl rfl).2.2.2.2.1⟩

/-- C28 (monitor log cap): the counter `NumLogMessages` is one for all
monitors. From the state with Nodes 3 and 4 known (two messages logged, the
monitor of Node 3 empty), log 498 lines to Node 3, one line to Node 4, which
finds the counter at 500, empties only its own monitor and sets the counter
to 1, then 499 more lines to Node 3: the monitor of Node 3 holds 997 logged
lines, more than `MaxLogMessages`. -/
theorem C28_monitor_exceeds_cap :
    monitorText stateWithTwoNodes (Num.int 3) = some []
      ∧ (monitorText
          (logRepeat
            (Diagnostics.LogToMonitor (logRepeat stateWithTwoNodes (Num.int 3) "x".toList 498)
              (Num.int 4) "y".toList).1
            (Num.int 3) "x".toList 499)
          (Num.int 3)).map loggedLines = some 997
      ∧ MaxLogMessages < 997 := by
  have h3 : stateWithTwoNodes.nodes.get (Num.int 3)
      = some { name := some "a".toList, version := some "b".toList,
               macAddress := some "c".toList, numDevices := Num.int 1,
               devices := JSArray.empty, monitor := some 1 } := by decide
  have h4 : stateWithTwoNodes.nodes.get (Num.int 4)
      = some { name := some "d".toList, version := some "e".toList,
               macAddress := some "f".toList, numDevices := Num.int 1,
               devices := JSArray.empty, monitor := some 2 } := by decide
  have hmon : stateWithTwoNodes.monitors
      = ["Node 3 connected.\n".toList, [], "Node 4 connected.\n".toList] := by decide
  have hnum : stateWithTwoNodes.numLogMessages = 2 := by decide
  refine ⟨by decide, ?_, by decide⟩
  rw [logRepeat_below stateWithTwoNodes (Num.int 3) "x".toList 498 _ 1 h3 rfl
    (by rw [hmon]; decide) (by rw [hnum]; decide)]
  have hstep : ∀ mons : List Str,
      (Diagnostics.LogToMonitor
        { stateWithTwoNodes with monitors := mons
                                 numLogMessages := stateWithTwoNodes.numLogMessages + 498 }
        (Num.int 4) "y".toList).1
      = { stateWithTwoNodes with monitors := mons.set 2 ("y".toList ++ ['\n'])
                                 numLogMessages := 1 } := by
    intro mons
    simp only [Diagnostics.LogToMonitor, h4, hnum, MaxLogMessages]
    rfl
  rw [hstep]
  rw [logRepeat_below _ (Num.int 3) "x".toList 499 _ 1 (by exact h3) rfl
    (by simp only [List.length_set]; rw [hmon]; decide) (by decide)]
  simp only [monitorText, h3, hmon]
  simp only [List.set_cons_succ, List.set_cons_zero, List.getD_cons_succ, List.getD_cons_zero,
    List.nil_append, List.getElem?_cons_succ, List.getElem?_cons_zero, Option.map_some',
    loggedLines_append, loggedLines_replicate]
  rfl

/-- C29 (fixed value offset): for a line that starts with neither sentinel
and whose split on bars is `f0, f1, f2, f3, ...`, `ProcessRelayerMessage`
goes on with the value `line.drop (f2.length + 7)`, whatever the lengths of
`f0` and `f1`; when these two fields have 4 characters together, that is the
text after the third bar; for the line `3|02|10|-5` the value is `5`, not
`-5`, and the device sample carries `5`. -/
theorem C29_fixed_value_offset (st : State) (line f0 f1 f2 f3 : Str) (more : List Str)
    (hrel : startsWith line "ERROR:".toList = false)
    (hnode : startsWith line "NODE|".toList = false)
    (hsplit : jsSplit bar line = f0 :: f1 :: f2 :: f3 :: more) :
    ProcessRelayerMessage st line
        = (match toBigInt f2 with
          | none => (st, [Effect.showException Exn.badBigInt])
          | some timestamp =>
            valueMessage st line (f0 :: f1 :: f2 :: f3 :: more) (parseInt f0) (parseInt f1)
              timestamp (line.drop (f2.length + 7)))
      ∧ (f0.length + f1.length = 4 →
          line.drop (f2.length + 7) = afterThirdBar f0 f1 f2 line)
      ∧ jsSplit bar "3|02|10|-5".toList = ["3".toList, "02".toList, "10".toList, "-5".toList]
      ∧ frameValue "3|02|10|-5".toList (jsSplit bar "3|02|10|-5".toList) = "5".toList
      ∧ afterThirdBar "3".toList "02".toList "10".toList "3|02|10|-5".toList = "-5".toList
      ∧ notifications (ProcessRelayerMessage State.init "3|02|10|-5".toList).2
          = [(Num.int 3, Num.int 2, 10, "5".toList)] := by
  refine ⟨?_, ?_, by decide, by decide, by decide, by decide⟩
  · simp only [ProcessRelayerMessage, hrel, hnode, dataMessage, hsplit, frameValue,
      substringFrom, Bool.false_eq_true, if_false]
    simp
  · intro h
    simp only [afterThirdBar]
    congr 1
    omega

/-- C29 at the line `3|02|10|-5`: one-character node field, so the value
starts one character late. -/
theorem C29_fixed_value_offset_witness :
    (startsWith "3|02|10|-5".toList "ERROR:".toList = false
        ∧ startsWith "3|02|10|-5".toList "NODE|".toList = false
        ∧ jsSplit bar "3|02|10|-5".toList
            = "3".toList :: "02".toList :: "10".toList :: "-5".toList :: [])
      ∧ ProcessRelayerMessage State.init "3|02|10|-5".toList
        = (match toBigInt "10".toList with
          | none => (State.init, [Effect.showException Exn.badBigInt])
          | some timestamp =>
            valueMessage State.init "3|02|10|-5".toList
              ("3".toList :: "02".toList :: "10".toList :: "-5".toList :: [])
              (parseInt "3".toList) (parseInt "02".toList) timestamp
              ("3|02|10|-5".toList.drop ("10".toList.length + 7))) :=
  ⟨⟨by decide, by decide, by decide⟩,
    (C29_fixed_value_offset State.init "3|02|10|-5".toList "3".toList "02".toList "10".toList
      "-5".toList [] (by decide) (by decide) (by decide)).1⟩

/-- C30 (ChoosePort on an open port): with the port open, the promise of
`ChoosePort` is rejected with 'Port is already open.', but the function goes
on: a port is requested, and the port that the user then picks replaces
`webPort`. -/
theorem C30_open_port_replaced (s : SerialPort) (handle : Nat)
    (hopen : s.portOpened = true) :
    SerialPort.settlement (SerialPort.ChoosePort s (RequestOutcome.port (some handle))).2.1
        = some (Settle.reject "Port is already open.".toList)
      ∧ PortEffect.requestPort
          ∈ (SerialPort.ChoosePort s (RequestOutcome.port (some handle))).2.2
      ∧ (SerialPort.ChoosePort s (RequestOutcome.port (some handle))).1.webPort
          = some handle := by
  simp [SerialPort.ChoosePort, SerialPort.settlement, hopen]

/-- C30 at the opened port (handle 1) when the user picks port 2. -/
theorem C30_open_port_replaced_witness :
    openedPort.portOpened = true
      ∧ openedPort.webPort = some 1
      ∧ (SerialPort.ChoosePort openedPort (RequestOutcome.port (some 2))).1.webPort = some 2 :=
  ⟨rfl, rfl, (C30_open_port_replaced openedPort 2 rfl).2.2⟩

end SMAC
